import Mathlib

/-!
Shallow embedding of the CryptoTrader decision pipeline (risk manager,
strategies, strategy manager filter chain, regime classifier, performance
tracker and adaptive controller) over exact rational arithmetic, together
with theorems settling the frozen specification claims.

Python floats are modelled as rationals; dataframes of derived indicator
columns are modelled as indicator-snapshot records holding the values the
source reads from the latest rows; Python dicts are modelled as association
lists in insertion order.
-/

namespace CryptoTrader

/-- Clamp a rational to the interval [0, 1], as Python max(0.0, min(1.0, x)). -/
def clamp01 (x : ℚ) : ℚ := max 0 (min 1 x)

/-- Signal direction enum from strategies/base.py. -/
inductive Signal
  | BUY
  | SELL
  | HOLD
deriving DecidableEq, Repr

/-- TradeSignal dataclass from strategies/base.py. -/
structure TradeSignal where
  signal : Signal
  confidence : ℚ
  strategy : String
  symbol : String
  entry_price : ℚ
  stop_loss : ℚ
  take_profit : ℚ
  reason : String := ""
deriving DecidableEq, Repr

/-! Settings constants from config/settings.py. Names ending in reserved
suffixes are written in camel case; the comment on each gives the source
name. -/

/-- settings.MAX_POSITION_PCT. -/
def MAX_POSITION_PCT : ℚ := 15/100

/-- settings.STOP_LOSS_ATR_MULTIPLIER. -/
def STOP_LOSS_ATR_MULTIPLIER : ℚ := 3/2

/-- settings.REWARD_RISK_RATIO (source name ends in a reserved suffix). -/
def rewardRiskRatioDefault : ℚ := 2

/-- settings.MIN_SL_DISTANCE_PCT. -/
def MIN_SL_DISTANCE_PCT : ℚ := 15/1000

/-- settings.DAILY_LOSS_LIMIT_PCT. -/
def DAILY_LOSS_LIMIT_PCT : ℚ := 12/100

/-- settings.MAX_DRAWDOWN_PCT. -/
def MAX_DRAWDOWN_PCT : ℚ := 35/100

/-- settings.MAX_OPEN_POSITIONS. -/
def MAX_OPEN_POSITIONS : ℕ := 5

/-- settings.VOLATILE_REGIME_SIZING. -/
def VOLATILE_REGIME_SIZING : ℚ := 67/100

/-- settings.LEVERAGE. -/
def LEVERAGE : ℚ := 25

/-- settings.MIN_SIGNAL_CONFIDENCE. -/
def MIN_SIGNAL_CONFIDENCE : ℚ := 75/100

/-- settings.STRATEGY_MIN_CONFIDENCE dict lookup with fallback to
settings.MIN_SIGNAL_CONFIDENCE, as used by the risk manager. -/
def STRATEGY_MIN_CONFIDENCE (strategy : String) : ℚ :=
  if strategy = "momentum" then 78/100
  else if strategy = "mean_reversion" then 72/100
  else if strategy = "breakout" then 70/100
  else MIN_SIGNAL_CONFIDENCE

/-- settings.STRATEGY_SL_ATR_MULTIPLIER dict lookup with fallback to
settings.STOP_LOSS_ATR_MULTIPLIER. -/
def strategySlAtrMultiplier (strategy : String) : ℚ :=
  if strategy = "momentum" then 3/2
  else if strategy = "mean_reversion" then 8/10
  else if strategy = "breakout" then 3/2
  else STOP_LOSS_ATR_MULTIPLIER

/-- settings.STRATEGY_REWARD_RISK_RATIO dict lookup with fallback to
settings.REWARD_RISK_RATIO (source names end in a reserved suffix). -/
def strategyRewardRiskRatio (strategy : String) : ℚ :=
  if strategy = "momentum" then 2
  else if strategy = "mean_reversion" then 12/10
  else if strategy = "breakout" then 2
  else rewardRiskRatioDefault

/-- settings.EMA_TREND. -/
def EMA_TREND : ℕ := 21

/-- settings.RSI_OVERSOLD. -/
def RSI_OVERSOLD : ℚ := 25

/-- settings.RSI_OVERBOUGHT. -/
def RSI_OVERBOUGHT : ℚ := 75

/-- settings.ATR_PERIOD. -/
def ATR_PERIOD : ℕ := 14

/-- settings.ADX_PERIOD. -/
def ADX_PERIOD : ℕ := 14

/-- settings.VOLUME_SMA_PERIOD. -/
def VOLUME_SMA_PERIOD : ℕ := 20

/-- settings.BB_PERIOD. -/
def BB_PERIOD : ℕ := 10

/-- settings.SR_LOOKBACK. -/
def SR_LOOKBACK : ℕ := 50

/-- settings.ADX_TRENDING_THRESHOLD. -/
def ADX_TRENDING_THRESHOLD : ℚ := 25

/-- settings.ATR_VOLATILE_MULTIPLIER. -/
def ATR_VOLATILE_MULTIPLIER : ℚ := 3/2

/-- settings.SQUEEZE_RISK_ATR_MULT. -/
def SQUEEZE_RISK_ATR_MULT : ℚ := 12/10

/-- settings.SQUEEZE_RISK_OI_THRESHOLD. -/
def SQUEEZE_RISK_OI_THRESHOLD : ℚ := 6/10

/-- settings.TREND_EXHAUSTION_OI_DELTA. -/
def TREND_EXHAUSTION_OI_DELTA : ℚ := -3

/-- settings.NEWS_SENTIMENT_WEIGHT. -/
def NEWS_SENTIMENT_WEIGHT : ℚ := 15/100

/-- settings.FUNDING_ZSCORE_THRESHOLD. -/
def FUNDING_ZSCORE_THRESHOLD : ℚ := 2

/-- settings.MTF_REGIME_CONFIRMATION. -/
def MTF_REGIME_CONFIRMATION : Bool := true

/-- settings.MTF_REGIME_ADX_THRESHOLD. -/
def MTF_REGIME_ADX_THRESHOLD : ℚ := 22

/-- settings.ENABLE_TRENDING_WEAK. -/
def ENABLE_TRENDING_WEAK : Bool := true

/-- settings.TRENDING_WEAK_CONFIDENCE_PENALTY. -/
def TRENDING_WEAK_CONFIDENCE_PENALTY : ℚ := 8/100

/-- settings.MTF_STRONG_ADX_THRESHOLD. -/
def MTF_STRONG_ADX_THRESHOLD : ℚ := 25

/-- settings.MTF_WEAK_ADX_THRESHOLD. -/
def MTF_WEAK_ADX_THRESHOLD : ℚ := 18

/-- settings.MTF_REJECTION_CONFIRMATIONS. -/
def MTF_REJECTION_CONFIRMATIONS : ℕ := 3

/-- settings.REGIME_CHANGE_WAIT_BARS. -/
def REGIME_CHANGE_WAIT_BARS : Int := 0

/-- getattr(settings, "CHOPPY_FILTER_ENABLED", False): the attribute is not
defined in config/settings.py, so the getattr default False applies. -/
def CHOPPY_FILTER_ENABLED : Bool := false

/-- getattr(settings, "CHOPPY_ATR_RATIO_THRESHOLD", 1.15). -/
def CHOPPY_ATR_RATIO_THRESHOLD : ℚ := 115/100

/-- getattr(settings, "CHOPPY_ADX_CEILING", 30). -/
def CHOPPY_ADX_CEILING : ℚ := 30

/-- getattr(settings, "CHOPPY_CONFIDENCE_PENALTY", 0.12). -/
def CHOPPY_CONFIDENCE_PENALTY : ℚ := 12/100

/-- settings.DERIVATIVES_ENABLED. -/
def DERIVATIVES_ENABLED : Bool := true

/-- settings.PRIMARY_TIMEFRAME. -/
def PRIMARY_TIMEFRAME : String := "15m"

/-- settings.MTF_REGIME_TF. -/
def MTF_REGIME_TF : String := "4h"

/-! Risk manager (risk/risk_manager.py). The process-lifetime mutable state
of the RiskManager object is an explicit record; methods that mutate it
return the new record alongside their result. -/

/-- Mutable state of risk/risk_manager.py RiskManager. Python dicts keyed by
symbol are association lists; datetime-based daily reset bookkeeping is
owned by the caller and does not appear in the methods embedded here. -/
structure RiskManager where
  peak_portfolio_value : ℚ := 0
  daily_starting_value : ℚ := 0
  trading_halted : Bool := false
  halt_reason : String := ""
  last_stop_loss_bar : List (String × Int) := []
  consecutive_losses : ℕ := 0
  trades_this_hour : ℕ := 0
  hour_start_bar : Int := 0
  trades_today : ℕ := 0
  last_win_bar : List (String × Int) := []
  entries_this_tick : ℕ := 0
  current_tick_bar : Int := -1
deriving DecidableEq, Repr

/-- RiskManager.reset_daily. -/
def reset_daily (rm : RiskManager) (portfolio_value : ℚ) : RiskManager :=
  { rm with
    daily_starting_value := portfolio_value
    trading_halted := false
    halt_reason := ""
    trades_today := 0 }

/-- Renders a rational as a percentage string. The source formats halt
reasons with the Python .1 percent float format; every property proved here
only inspects the constant prefix of the reason, so the numeric tail is
rendered as the exact rational instead. -/
def fmtPct (q : ℚ) : String :=
  toString (q * 100).num ++ "/" ++ toString (q * 100).den ++ "%"

/-- RiskManager.check_circuit_breakers, returning the Python boolean result
together with the post-call state. -/
def check_circuit_breakers (rm : RiskManager) (portfolio_value : ℚ)
    (open_position_count : ℕ) : Bool × RiskManager :=
  if rm.trading_halted then
    (false, rm)
  else if portfolio_value ≤ 0 then
    -- Guard against API failures returning a zero balance: do not trade,
    -- but do not halt either.
    (false, rm)
  else if rm.daily_starting_value > 0 ∧
      portfolio_value < rm.daily_starting_value * (50/100) then
    -- Guard against partial API failures: skip the check without halting.
    (false, rm)
  else
    let afterDaily : Option (Bool × RiskManager) :=
      if rm.daily_starting_value > 0 then
        let daily_pnl_pct :=
          (portfolio_value - rm.daily_starting_value) / rm.daily_starting_value
        if daily_pnl_pct ≤ -DAILY_LOSS_LIMIT_PCT then
          some (false, { rm with
            trading_halted := true
            halt_reason := "Daily loss limit hit: " ++ fmtPct daily_pnl_pct })
        else none
      else none
    match afterDaily with
    | some r => r
    | none =>
      let afterDrawdown : Option (Bool × RiskManager) :=
        if rm.peak_portfolio_value > 0 then
          let drawdown :=
            (rm.peak_portfolio_value - portfolio_value) / rm.peak_portfolio_value
          if drawdown ≥ MAX_DRAWDOWN_PCT then
            some (false, { rm with
              trading_halted := true
              halt_reason := "Max drawdown circuit breaker: " ++ fmtPct drawdown })
          else none
        else none
      match afterDrawdown with
      | some r => r
      | none =>
        if open_position_count ≥ MAX_OPEN_POSITIONS then (false, rm)
        else (true, rm)

/-- RiskManager._get_current_drawdown. -/
def getCurrentDrawdown (rm : RiskManager) (portfolio_value : ℚ) : ℚ :=
  if rm.peak_portfolio_value ≤ 0 then 0
  else max 0 ((rm.peak_portfolio_value - portfolio_value) / rm.peak_portfolio_value)

/-- Margin allocated to one trade: the max_margin accumulator of
RiskManager.calculate_position_size after the regime, confidence and
drawdown scalings (source lines 208 to 239), factored out so the sizing
bound can name it. -/
def allocatedMargin (rm : RiskManager) (signal : TradeSignal)
    (portfolio_value : ℚ) (regime : String) : ℚ :=
  let max_margin := portfolio_value * MAX_POSITION_PCT
  -- Regime-based scaling: volatile markets get reduced sizing.
  let max_margin :=
    if regime = "volatile" then max_margin * VOLATILE_REGIME_SIZING else max_margin
  -- Confidence-scaled sizing.
  let min_conf := STRATEGY_MIN_CONFIDENCE signal.strategy
  let conf_range := 1 - min_conf
  let scale :=
    if conf_range > 0 then
      let conf_excess := (signal.confidence - min_conf) / conf_range
      6/10 + 4/10 * max 0 (min 1 conf_excess)
    else 1
  let max_margin := max_margin * scale
  -- Drawdown-based reduction: linear from full size at 10 percent drawdown
  -- down to a floor of one quarter at 20 percent or more.
  let drawdown := getCurrentDrawdown rm portfolio_value
  if drawdown > 10/100 then max_margin * max (25/100) (1 - (drawdown - 10/100) * (15/2))
  else max_margin

/-- RiskManager.calculate_position_size. -/
def calculate_position_size (rm : RiskManager) (signal : TradeSignal)
    (portfolio_value current_price : ℚ) (regime : String) : ℚ :=
  if signal.signal = Signal.HOLD then 0
  else
    let max_margin := allocatedMargin rm signal portfolio_value regime
    -- With leverage, the notional position is larger.
    let max_notional := max_margin * LEVERAGE
    let risk_per_unit := |current_price - signal.stop_loss|
    if risk_per_unit ≤ 0 then 0
    else
      let quantity := max_notional / current_price
      -- Ensure the loss at the stop-loss does not exceed the margin.
      let risk_quantity := max_margin / risk_per_unit
      let quantity := min quantity risk_quantity
      -- Cap to max notional.
      let quantity := min quantity (max_notional / current_price)
      if quantity * current_price < 5 then 0 else quantity

/-- RiskManager.validate_signal. The source mutates the signal in place when
widening a tight stop; the embedding returns the boolean verdict together
with the possibly rewritten signal. -/
def validate_signal (signal : TradeSignal) : Bool × TradeSignal :=
  if signal.signal = Signal.HOLD then (false, signal)
  else
    let min_conf := STRATEGY_MIN_CONFIDENCE signal.strategy
    if signal.confidence < min_conf then (false, signal)
    else if signal.stop_loss ≤ 0 then (false, signal)
    else
      -- Minimum stop distance: widen to the floor instead of rejecting.
      let sl_distance_pct :=
        |signal.entry_price - signal.stop_loss| / signal.entry_price
      let signal :=
        if sl_distance_pct < MIN_SL_DISTANCE_PCT then
          let min_sl_dist := signal.entry_price * MIN_SL_DISTANCE_PCT
          let min_rr := strategyRewardRiskRatio signal.strategy
          if signal.signal = Signal.BUY then
            { signal with
              stop_loss := signal.entry_price - min_sl_dist
              take_profit := signal.entry_price + min_sl_dist * min_rr }
          else
            { signal with
              stop_loss := signal.entry_price + min_sl_dist
              take_profit := signal.entry_price - min_sl_dist * min_rr }
        else signal
      -- Verify the reward to risk ratio with a small epsilon.
      let risk := |signal.entry_price - signal.stop_loss|
      let reward := |signal.take_profit - signal.entry_price|
      let min_rr := strategyRewardRiskRatio signal.strategy
      if risk > 0 ∧ reward / risk < min_rr - 1/100 then (false, signal)
      else (true, signal)

/-! Indicator layer. The pandas dataframe of derived indicator columns is
modelled as a read-only snapshot record holding exactly the values the
source reads from the latest and previous rows, plus the bar count used by
the minimum-data guards. -/

/-- Divergence flag. Modelled from the spec: detect_rsi_divergence and
detect_macd_divergence are imported from analysis.indicators by the
strategies but are missing from src/analysis/indicators.py; the spec lists
RSI and MACD divergence flags among the derived indicator set, so their
outcome is carried as a three-valued snapshot field. -/
inductive Divergence
  | bullish
  | bearish
  | none
deriving DecidableEq, Repr

/-- Read-only indicator snapshot: the values strategies and the classifier
read from the indicator-augmented dataframe. barCount is len(df). Columns
absent from a dataframe are read through pandas .get with a default, so
volumeRatio, obv and obvEma carry whatever that lookup yields. -/
structure IndicatorSnapshot where
  barCount : ℕ
  openPrice : ℚ
  high : ℚ
  low : ℚ
  close : ℚ
  prevOpen : ℚ
  prevClose : ℚ
  emaFast : ℚ
  emaSlow : ℚ
  emaTrend : ℚ
  prevEmaFast : ℚ
  prevEmaSlow : ℚ
  rsi : ℚ
  atr : ℚ
  atrSma : ℚ
  adx : ℚ
  volumeRatio : ℚ
  macdHist : ℚ
  prevMacdHist : ℚ
  obv : ℚ
  obvEma : ℚ
  bbl : ℚ
  bbm : ℚ
  bbu : ℚ
  supportLevels : List ℚ
  resistanceLevels : List ℚ
  rsiDiv : Divergence
  macdDiv : Divergence

/-- Derivatives snapshot dict consumed by the classifier and the
derivatives filter. A Python None or empty dict (both falsy) is modelled as
Option.none at the call sites. -/
structure DerivData where
  oi_delta_pct : ℚ := 0
  oi_direction : String := "neutral"
  oi_zscore : ℚ := 0
  funding_zscore : ℚ := 0
  squeeze_risk : ℚ := 0
  is_cascade : Bool := false
deriving DecidableEq, Repr

/-- MarketRegime enum from analysis/market_analyzer.py. -/
inductive MarketRegime
  | TRENDING
  | TRENDING_STRONG
  | TRENDING_WEAK
  | RANGING
  | VOLATILE
  | SQUEEZE_RISK
deriving DecidableEq, Repr

/-- MarketAnalyzer.classify. -/
def classify (s : IndicatorSnapshot) (derivatives_data : Option DerivData) :
    MarketRegime :=
  if s.barCount < ATR_PERIOD + ADX_PERIOD then MarketRegime.RANGING
  else
    -- SQUEEZE_RISK first: elevated ATR plus high squeeze risk from OI data.
    let squeezeHit : Bool :=
      match derivatives_data with
      | some d =>
          decide (s.atrSma > 0 ∧ s.atr > s.atrSma * SQUEEZE_RISK_ATR_MULT ∧
            d.squeeze_risk ≥ SQUEEZE_RISK_OI_THRESHOLD)
      | Option.none => false
    if squeezeHit then MarketRegime.SQUEEZE_RISK
    -- Volatile regime: high ATR relative to its average.
    else if s.atrSma > 0 ∧ s.atr > s.atrSma * ATR_VOLATILE_MULTIPLIER then
      MarketRegime.VOLATILE
    -- Trending regime, with a trend-exhaustion downgrade on falling OI.
    else if s.adx > ADX_TRENDING_THRESHOLD then
      match derivatives_data with
      | some d =>
          if d.oi_delta_pct < TREND_EXHAUSTION_OI_DELTA then MarketRegime.RANGING
          else MarketRegime.TRENDING
      | Option.none => MarketRegime.TRENDING
    else MarketRegime.RANGING

/-! Strategies (strategies/momentum.py, mean_reversion.py, breakout.py).
Each is a pure function of the indicator snapshot and the symbol. -/

/-- Insufficient-data HOLD of MomentumStrategy. -/
def momentumHold (symbol : String) (price : ℚ) : TradeSignal :=
  { signal := Signal.HOLD, confidence := 0, strategy := "momentum",
    symbol := symbol, entry_price := price, stop_loss := 0, take_profit := 0,
    reason := "Insufficient data" }

/-- Confidence accumulated by the BUY block of MomentumStrategy.analyze. -/
def momentumBuyConfidence (s : IndicatorSnapshot) : ℚ :=
  let c : ℚ := 20/100
  -- RSI confirmation.
  let c := if 40 < s.rsi ∧ s.rsi < RSI_OVERBOUGHT then c + 15/100
           else if s.rsi ≥ RSI_OVERBOUGHT then c - 20/100 else c
  -- MACD histogram positive and rising.
  let c := if s.macdHist > 0 ∧ s.macdHist > s.prevMacdHist then c + 15/100
           else if s.macdHist > 0 then c + 10/100 else c
  -- Volume confirmation.
  let c := if s.volumeRatio > 3/2 then c + 15/100
           else if s.volumeRatio > 6/5 then c + 8/100 else c
  -- OBV confirms buying pressure.
  let c := if s.obv > s.obvEma then c + 10/100 else c
  -- Divergence bonuses and penalty.
  let c := if s.rsiDiv = Divergence.bullish then c + 15/100 else c
  let c := if s.macdDiv = Divergence.bullish then c + 10/100 else c
  let c := if s.rsiDiv = Divergence.bearish then c - 15/100 else c
  c

/-- Confidence accumulated by the SELL block of MomentumStrategy.analyze. -/
def momentumSellConfidence (s : IndicatorSnapshot) : ℚ :=
  let c : ℚ := 20/100
  let c := if s.rsi < RSI_OVERSOLD then c - 15/100
           else if s.rsi > 55 then c + 15/100 else c
  let c := if s.macdHist < 0 ∧ s.macdHist < s.prevMacdHist then c + 15/100
           else if s.macdHist < 0 then c + 10/100 else c
  let c := if s.volumeRatio > 3/2 then c + 15/100 else c
  let c := if s.obv < s.obvEma then c + 10/100 else c
  let c := if s.rsiDiv = Divergence.bearish then c + 15/100 else c
  let c := if s.macdDiv = Divergence.bearish then c + 10/100 else c
  c

/-- Direction and raw confidence scored by MomentumStrategy.analyze before
the final clamp: the trigger dispatch over the BUY and SELL blocks. -/
def momentumCore (s : IndicatorSnapshot) : Signal × ℚ :=
  if (s.prevEmaFast ≤ s.prevEmaSlow ∧ s.emaFast > s.emaSlow) ∨
      (s.emaFast > s.emaSlow ∧ s.close > s.emaTrend) then
    (Signal.BUY, momentumBuyConfidence s)
  else if (s.prevEmaFast ≥ s.prevEmaSlow ∧ s.emaFast < s.emaSlow) ∨
      (s.emaFast < s.emaSlow ∧ s.close < s.emaTrend) then
    (Signal.SELL, momentumSellConfidence s)
  else (Signal.HOLD, 0)

/-- MomentumStrategy.analyze. -/
def momentumAnalyze (s : IndicatorSnapshot) (symbol : String) : TradeSignal :=
  if s.barCount < EMA_TREND + 5 then momentumHold symbol s.close
  else
    let price := s.close
    let sc := momentumCore s
    let signal := sc.1
    let confidence := clamp01 sc.2
    let stop_loss :=
      if signal = Signal.BUY then price - s.atr * STOP_LOSS_ATR_MULTIPLIER
      else price + s.atr * STOP_LOSS_ATR_MULTIPLIER
    let risk := |price - stop_loss|
    let take_profit :=
      if signal = Signal.BUY then price + risk * rewardRiskRatioDefault
      else price - risk * rewardRiskRatioDefault
    { signal := signal, confidence := confidence, strategy := "momentum",
      symbol := symbol, entry_price := price, stop_loss := stop_loss,
      take_profit := take_profit, reason := "" }

/-- Insufficient-data HOLD of MeanReversionStrategy. -/
def meanReversionHold (symbol : String) (price : ℚ) : TradeSignal :=
  { signal := Signal.HOLD, confidence := 0, strategy := "mean_reversion",
    symbol := symbol, entry_price := price, stop_loss := 0, take_profit := 0,
    reason := "Insufficient data" }

/-- Confidence accumulated by the BUY block of MeanReversionStrategy. -/
def meanReversionBuyConfidence (s : IndicatorSnapshot) : ℚ :=
  let bb_width := s.bbu - s.bbl
  let c : ℚ :=
    if bb_width > 0 then
      if (s.bbl - s.close) / bb_width > 10/100 then 25/100 else 18/100
    else 18/100
  let c := if s.rsi ≤ RSI_OVERSOLD then c + 25/100
           else if s.rsi ≤ 35 then c + 15/100
           else if s.rsi ≤ 45 then c + 5/100
           else if s.rsi > 55 then c - 10/100 else c
  let c := if s.close > s.openPrice ∧ s.prevClose < s.prevOpen then c + 15/100
           else if s.close > s.openPrice then c + 5/100 else c
  let c := if s.volumeRatio > 3/2 then c + 12/100
           else if s.volumeRatio < 8/10 then c - 10/100 else c
  let c := if s.rsiDiv = Divergence.bullish then c + 20/100 else c
  let c := if s.obv > s.obvEma then c + 8/100 else c
  c

/-- Confidence accumulated by the SELL block of MeanReversionStrategy. -/
def meanReversionSellConfidence (s : IndicatorSnapshot) : ℚ :=
  let bb_width := s.bbu - s.bbl
  let c : ℚ :=
    if bb_width > 0 then
      if (s.close - s.bbu) / bb_width > 10/100 then 25/100 else 18/100
    else 18/100
  let c := if s.rsi ≥ RSI_OVERBOUGHT then c + 25/100
           else if s.rsi ≥ 65 then c + 15/100
           else if s.rsi ≥ 55 then c + 5/100
           else if s.rsi < 45 then c - 10/100 else c
  let c := if s.close < s.openPrice ∧ s.prevClose > s.prevOpen then c + 15/100
           else if s.close < s.openPrice then c + 5/100 else c
  let c := if s.volumeRatio > 3/2 then c + 12/100
           else if s.volumeRatio < 8/10 then c - 10/100 else c
  let c := if s.rsiDiv = Divergence.bearish then c + 20/100 else c
  let c := if s.obv < s.obvEma then c + 8/100 else c
  c

/-- Direction and raw confidence scored by MeanReversionStrategy.analyze
before the final clamp: the band-touch dispatch over the two blocks. -/
def meanReversionCore (s : IndicatorSnapshot) : Signal × ℚ :=
  if s.close ≤ s.bbl then (Signal.BUY, meanReversionBuyConfidence s)
  else if s.close ≥ s.bbu then (Signal.SELL, meanReversionSellConfidence s)
  else (Signal.HOLD, 0)

/-- MeanReversionStrategy.analyze. -/
def meanReversionAnalyze (s : IndicatorSnapshot) (symbol : String) : TradeSignal :=
  if s.barCount < BB_PERIOD + 5 then meanReversionHold symbol s.close
  else if s.bbl = 0 ∨ s.bbu = 0 then meanReversionHold symbol s.close
  else
    let price := s.close
    let sc := meanReversionCore s
    let signal := sc.1
    let confidence := clamp01 sc.2
    let sl_mult := strategySlAtrMultiplier "mean_reversion"
    let rr := strategyRewardRiskRatio "mean_reversion"
    let stop_loss :=
      if signal = Signal.BUY then price - s.atr * sl_mult else price + s.atr * sl_mult
    let risk := |price - stop_loss|
    let take_profit :=
      if signal = Signal.BUY then price + risk * rr else price - risk * rr
    { signal := signal, confidence := confidence, strategy := "mean_reversion",
      symbol := symbol, entry_price := price, stop_loss := stop_loss,
      take_profit := take_profit, reason := "" }

/-- Python min over a nonempty list with a rational key: returns the first
element attaining the minimal key. -/
def argminKey (key : ℚ → ℚ) (x : ℚ) (xs : List ℚ) : ℚ :=
  xs.foldl (fun best y => if key y < key best then y else best) x

/-- Insufficient-data HOLD of BreakoutStrategy. -/
def breakoutHold (symbol : String) (price : ℚ) : TradeSignal :=
  { signal := Signal.HOLD, confidence := 0, strategy := "breakout",
    symbol := symbol, entry_price := price, stop_loss := 0, take_profit := 0,
    reason := "Insufficient data or no S/R levels" }

/-- Confidence accumulated by the resistance-breakout BUY block of
BreakoutStrategy, given the nonempty resistance level list. -/
def breakoutBuyConfidence (s : IndicatorSnapshot) (r : ℚ) (rs : List ℚ) : ℚ :=
  let nearest := argminKey (fun x => |x - s.close|) r rs
  let margin_pct := if nearest > 0 then (s.close - nearest) / nearest else 0
  let c : ℚ := if margin_pct > 2/1000 then 28/100 else 20/100
  let c := if s.volumeRatio > 2 then c + 25/100
           else if s.volumeRatio > 3/2 then c + 18/100
           else c - 15/100
  let candle_body := |s.close - s.openPrice|
  let candle_range := s.high - s.low
  let c := if candle_range > 0 ∧ candle_body / candle_range > 7/10 then c + 12/100
           else if candle_range > 0 ∧ candle_body / candle_range > 6/10 then c + 6/100
           else c
  let c := if 50 < s.rsi ∧ s.rsi < 75 then c + 10/100
           else if s.rsi ≥ 80 then c - 10/100 else c
  let c := if s.obv > s.obvEma then c + 8/100 else c
  c

/-- Confidence accumulated by the support-breakdown SELL block of
BreakoutStrategy, given the nonempty support level list. -/
def breakoutSellConfidence (s : IndicatorSnapshot) (l : ℚ) (ls : List ℚ) : ℚ :=
  let nearest := argminKey (fun x => |x - s.close|) l ls
  let margin_pct := if nearest > 0 then (nearest - s.close) / nearest else 0
  let c : ℚ := if margin_pct > 2/1000 then 28/100 else 20/100
  let c := if s.volumeRatio > 2 then c + 25/100
           else if s.volumeRatio > 3/2 then c + 18/100
           else c - 15/100
  let candle_body := |s.close - s.openPrice|
  let candle_range := s.high - s.low
  let c := if candle_range > 0 ∧ candle_body / candle_range > 7/10 then c + 12/100
           else if candle_range > 0 ∧ candle_body / candle_range > 6/10 then c + 6/100
           else c
  let c := if 25 < s.rsi ∧ s.rsi < 50 then c + 10/100
           else if s.rsi ≤ 20 then c - 10/100 else c
  let c := if s.obv < s.obvEma then c + 8/100 else c
  c

/-- Resistance-breakout stage of BreakoutStrategy.analyze. -/
def breakoutResistance (s : IndicatorSnapshot) : Signal × ℚ :=
  match s.resistanceLevels with
  | r :: rs =>
    if s.close > argminKey (fun x => |x - s.close|) r rs ∧
        s.prevClose ≤ argminKey (fun x => |x - s.close|) r rs then
      (Signal.BUY, breakoutBuyConfidence s r rs)
    else (Signal.HOLD, (0:ℚ))
  | [] => (Signal.HOLD, (0:ℚ))

/-- Direction and raw confidence scored by BreakoutStrategy.analyze before
the final clamp: the resistance-breakout block, falling through to the
support-breakdown block when no breakout fired. -/
def breakoutCore (s : IndicatorSnapshot) : Signal × ℚ :=
  if (breakoutResistance s).1 = Signal.HOLD then
    match s.supportLevels with
    | l :: ls =>
      if s.close < argminKey (fun x => |x - s.close|) l ls ∧
          s.prevClose ≥ argminKey (fun x => |x - s.close|) l ls then
        (Signal.SELL, breakoutSellConfidence s l ls)
      else breakoutResistance s
    | [] => breakoutResistance s
  else breakoutResistance s

/-- BreakoutStrategy.analyze. Support and resistance levels are the clustered
levels returned by find_support_resistance, carried on the snapshot. -/
def breakoutAnalyze (s : IndicatorSnapshot) (symbol : String) : TradeSignal :=
  let min_bars := max EMA_TREND SR_LOOKBACK + 5
  if s.barCount < min_bars then breakoutHold symbol s.close
  else if s.supportLevels = [] ∧ s.resistanceLevels = [] then
    breakoutHold symbol s.close
  else
    let price := s.close
    let sc := breakoutCore s
    let signal := sc.1
    let confidence := clamp01 sc.2
    let sl_mult := strategySlAtrMultiplier "breakout"
    let rr := strategyRewardRiskRatio "breakout"
    let stop_loss :=
      if signal = Signal.BUY then price - s.atr * sl_mult else price + s.atr * sl_mult
    let risk := |price - stop_loss|
    let take_profit :=
      if signal = Signal.BUY then price + risk * rr else price - risk * rr
    { signal := signal, confidence := confidence, strategy := "breakout",
      symbol := symbol, entry_price := price, stop_loss := stop_loss,
      take_profit := take_profit, reason := "" }

/-! Strategy manager (strategies/strategy_manager.py). -/

/-- Higher-timeframe trend label. Modelled from the spec: get_higher_tf_trend
is imported from analysis.indicators but missing from
src/analysis/indicators.py; per the spec it classifies a higher timeframe as
bullish, bearish or neutral via a fast and slow EMA comparison, so its
outcome is carried as a field of the higher-timeframe snapshot. -/
inductive Trend
  | bullish
  | bearish
  | neutral
deriving DecidableEq, Repr

/-- Data the strategy manager reads from one higher-timeframe dataframe: the
pandas empty flag, the ADX value computed by add_adx, and the trend label. -/
structure HtfData where
  isEmpty : Bool := false
  adx : ℚ := 0
  trend : Trend := Trend.neutral
deriving DecidableEq, Repr

/-- Python dict.get on an association list in insertion order. -/
def alistGet? {α : Type} : List (String × α) → String → Option α
  | [], _ => Option.none
  | (k2, v) :: rest, k => if k2 = k then some v else alistGet? rest k

/-- Python dict item assignment on an association list. -/
def alistSet {α : Type} : List (String × α) → String → α → List (String × α)
  | [], k, v => [(k, v)]
  | (k2, v2) :: rest, k, v =>
      if k2 = k then (k2, v) :: rest else (k2, v2) :: alistSet rest k v

/-- Mutable per-symbol maps of StrategyManager. -/
structure ManagerState where
  lastRegime : List (String × String) := []
  regimeChangeBar : List (String × Int) := []
  htfRejectionCount : List (String × ℕ) := []
deriving DecidableEq, Repr

/-- String value of a MarketRegime, as the Python enum value. -/
def regimeValue : MarketRegime → String
  | MarketRegime.TRENDING => "trending"
  | MarketRegime.TRENDING_STRONG => "trending_strong"
  | MarketRegime.TRENDING_WEAK => "trending_weak"
  | MarketRegime.RANGING => "ranging"
  | MarketRegime.VOLATILE => "volatile"
  | MarketRegime.SQUEEZE_RISK => "squeeze_risk"

/-- StrategyManager._confirm_regime, returning the confirmed regime and the
updated hysteresis state. -/
def confirmRegime (st : ManagerState) (regime : MarketRegime)
    (higher_tf_data : List (String × HtfData)) (symbol : String) :
    MarketRegime × ManagerState :=
  let htf0 :=
    match alistGet? higher_tf_data MTF_REGIME_TF with
    | some d => if d.isEmpty then alistGet? higher_tf_data "1h" else some d
    | Option.none => alistGet? higher_tf_data "1h"
  match htf0 with
  | Option.none => (regime, st)
  | some d =>
    if d.isEmpty then (regime, st)
    else
      let htf_adx := d.adx
      if ENABLE_TRENDING_WEAK then
        -- Graduated three-tier gating with hysteresis.
        if htf_adx ≥ MTF_STRONG_ADX_THRESHOLD then
          (MarketRegime.TRENDING_STRONG,
            { st with htfRejectionCount := alistSet st.htfRejectionCount symbol 0 })
        else if htf_adx ≥ MTF_WEAK_ADX_THRESHOLD then
          (MarketRegime.TRENDING_WEAK,
            { st with htfRejectionCount := alistSet st.htfRejectionCount symbol 0 })
        else
          let count := ((alistGet? st.htfRejectionCount symbol).getD 0) + 1
          let st := { st with htfRejectionCount := alistSet st.htfRejectionCount symbol count }
          if count ≥ MTF_REJECTION_CONFIRMATIONS then (MarketRegime.RANGING, st)
          else (MarketRegime.TRENDING_WEAK, st)
      else
        -- Original binary gate.
        if htf_adx < MTF_REGIME_ADX_THRESHOLD then (MarketRegime.RANGING, st)
        else (regime, st)

/-- TRENDING_WEAK confidence penalty applied in StrategyManager.get_signal. -/
def applyTrendingWeakPenalty (signal : TradeSignal) : TradeSignal :=
  let penalty := TRENDING_WEAK_CONFIDENCE_PENALTY
  { signal with
    confidence := max 0 (signal.confidence - penalty)
    reason := signal.reason ++ "; trending_weak penalty" }

/-- StrategyManager._apply_choppy_filter. -/
def applyChoppyFilter (signal : TradeSignal) (s : IndicatorSnapshot) : TradeSignal :=
  if ¬ CHOPPY_FILTER_ENABLED then signal
  else if s.barCount < VOLUME_SMA_PERIOD + 5 then signal
  else if s.atrSma ≤ 0 then signal
  else if s.atr / s.atrSma > CHOPPY_ATR_RATIO_THRESHOLD ∧ s.adx < CHOPPY_ADX_CEILING then
    { signal with
      confidence := max 0 (signal.confidence - CHOPPY_CONFIDENCE_PENALTY)
      reason := signal.reason ++ "; choppy penalty" }
  else signal

/-- StrategyManager._apply_mtf_filter. Trends of all non-primary timeframes
are compared against the signal direction. -/
def applyMtfFilter (signal : TradeSignal)
    (higher_tf_data : List (String × HtfData)) : TradeSignal :=
  let htf_trends :=
    (higher_tf_data.filter (fun p => decide (p.1 ≠ PRIMARY_TIMEFRAME))).map
      (fun p => (p.1, p.2.trend))
  if htf_trends = [] then signal
  else
    let aligned := (htf_trends.filter (fun p =>
      decide ((signal.signal = Signal.BUY ∧ p.2 = Trend.bullish) ∨
        (signal.signal = Signal.SELL ∧ p.2 = Trend.bearish)))).length
    let opposed := (htf_trends.filter (fun p =>
      decide ((signal.signal = Signal.BUY ∧ p.2 = Trend.bearish) ∨
        (signal.signal = Signal.SELL ∧ p.2 = Trend.bullish)))).length
    if opposed > 0 ∧ aligned = 0 then
      -- Trading against all higher timeframes: kill the signal.
      { signal := Signal.HOLD, confidence := 0, strategy := signal.strategy,
        symbol := signal.symbol, entry_price := signal.entry_price,
        stop_loss := 0, take_profit := 0, reason := "Blocked by higher TF" }
    else if aligned > 0 then
      { signal with
        confidence := min 1 (signal.confidence + (10/100) * (aligned : ℚ))
        reason := signal.reason ++ "; MTF aligned" }
    else signal

/-- StrategyManager._apply_funding_filter. -/
def applyFundingFilter (signal : TradeSignal) (funding_rate : ℚ) : TradeSignal :=
  let adjustment : ℚ :=
    if signal.signal = Signal.BUY then
      if funding_rate > 1/1000 then -(15/100)
      else if funding_rate < -(5/10000) then 8/100
      else 0
    else if signal.signal = Signal.SELL then
      if funding_rate < -(1/1000) then -(15/100)
      else if funding_rate > 5/10000 then 8/100
      else 0
    else 0
  if adjustment ≠ 0 then
    { signal with
      confidence := clamp01 (signal.confidence + adjustment)
      reason := signal.reason ++ "; funding filter" }
  else signal

/-- StrategyManager._apply_ob_filter. -/
def applyObFilter (signal : TradeSignal) (imbalance : ℚ) : TradeSignal :=
  let adjustment : ℚ :=
    if signal.signal = Signal.BUY ∧ imbalance > 15/100 then 8/100
    else if signal.signal = Signal.BUY ∧ imbalance < -(15/100) then -(10/100)
    else if signal.signal = Signal.SELL ∧ imbalance < -(15/100) then 8/100
    else if signal.signal = Signal.SELL ∧ imbalance > 15/100 then -(10/100)
    else 0
  if adjustment ≠ 0 then
    { signal with
      confidence := clamp01 (signal.confidence + adjustment)
      reason := signal.reason ++ "; order book filter" }
  else signal

/-- StrategyManager._apply_news_filter. -/
def applyNewsFilter (signal : TradeSignal) (news_score : ℚ) : TradeSignal :=
  let weight := NEWS_SENTIMENT_WEIGHT
  let adjustment : ℚ :=
    if signal.signal = Signal.BUY then
      if news_score > 3/10 then weight
      else if news_score < -(3/10) then -weight
      else 0
    else if signal.signal = Signal.SELL then
      if news_score < -(3/10) then weight
      else if news_score > 3/10 then -weight
      else 0
    else 0
  if adjustment ≠ 0 then
    { signal with
      confidence := clamp01 (signal.confidence + adjustment)
      reason := signal.reason ++ "; news filter" }
  else signal

/-- StrategyManager._apply_derivatives_filter. -/
def applyDerivativesFilter (signal : TradeSignal) (d : DerivData) : TradeSignal :=
  if d.is_cascade then
    -- Liquidation cascade: block the signal outright.
    { signal := Signal.HOLD, confidence := 0, strategy := signal.strategy,
      symbol := signal.symbol, entry_price := signal.entry_price,
      stop_loss := 0, take_profit := 0, reason := "Blocked: liquidation cascade" }
  else
    let adjustment : ℚ := 0
    let adjustment :=
      if d.oi_delta_pct < -2 ∧ signal.strategy = "breakout" then
        adjustment - 15/100
      else if d.oi_delta_pct > 2 ∧
          ((signal.signal = Signal.BUY ∧ d.oi_direction = "bullish") ∨
           (signal.signal = Signal.SELL ∧ d.oi_direction = "bearish")) then
        adjustment + 10/100
      else adjustment
    let adjustment :=
      if |d.funding_zscore| > FUNDING_ZSCORE_THRESHOLD ∧
          ((signal.signal = Signal.BUY ∧ d.funding_zscore > 0) ∨
           (signal.signal = Signal.SELL ∧ d.funding_zscore < 0)) then
        adjustment - 12/100
      else adjustment
    if adjustment ≠ 0 then
      { signal with
        confidence := clamp01 (signal.confidence + adjustment)
        reason := signal.reason ++ "; derivatives filter" }
    else signal

/-- Regime-to-strategy dispatch table of StrategyManager. -/
def analyzeForRegime (regime : MarketRegime) (s : IndicatorSnapshot)
    (symbol : String) : TradeSignal :=
  match regime with
  | MarketRegime.TRENDING => momentumAnalyze s symbol
  | MarketRegime.TRENDING_STRONG => momentumAnalyze s symbol
  | MarketRegime.TRENDING_WEAK => momentumAnalyze s symbol
  | MarketRegime.RANGING => meanReversionAnalyze s symbol
  | MarketRegime.VOLATILE => breakoutAnalyze s symbol
  | MarketRegime.SQUEEZE_RISK => meanReversionAnalyze s symbol

/-! Each guarded filter application of StrategyManager.get_signal is one
step function so the chain can be reasoned about stage by stage. -/

/-- TRENDING_WEAK penalty step of get_signal. -/
def stepTrendingWeak (regime : MarketRegime) (signal : TradeSignal) : TradeSignal :=
  if regime = MarketRegime.TRENDING_WEAK ∧ signal.signal ≠ Signal.HOLD then
    applyTrendingWeakPenalty signal
  else signal

/-- Choppy filter step of get_signal (momentum only). -/
def stepChoppy (s : IndicatorSnapshot) (signal : TradeSignal) : TradeSignal :=
  if signal.signal ≠ Signal.HOLD ∧ signal.strategy = "momentum" then
    applyChoppyFilter signal s
  else signal

/-- Multi-timeframe filter step of get_signal. -/
def stepMtf (higher_tf_data : List (String × HtfData)) (signal : TradeSignal) :
    TradeSignal :=
  if signal.signal ≠ Signal.HOLD ∧ higher_tf_data ≠ [] then
    applyMtfFilter signal higher_tf_data
  else signal

/-- Funding rate filter step of get_signal. -/
def stepFunding (funding_rate : Option ℚ) (signal : TradeSignal) : TradeSignal :=
  match funding_rate with
  | some fr => if signal.signal ≠ Signal.HOLD then applyFundingFilter signal fr else signal
  | Option.none => signal

/-- Order book imbalance filter step of get_signal. -/
def stepOb (ob_imbalance : ℚ) (signal : TradeSignal) : TradeSignal :=
  if signal.signal ≠ Signal.HOLD ∧ |ob_imbalance| > 5/100 then
    applyObFilter signal ob_imbalance
  else signal

/-- News sentiment filter step of get_signal. -/
def stepNews (news_score : ℚ) (signal : TradeSignal) : TradeSignal :=
  if signal.signal ≠ Signal.HOLD ∧ |news_score| > 1/10 then
    applyNewsFilter signal news_score
  else signal

/-- Derivatives filter step of get_signal. -/
def stepDerivatives (derivatives_data : Option DerivData) (signal : TradeSignal) :
    TradeSignal :=
  match derivatives_data with
  | some d =>
      if signal.signal ≠ Signal.HOLD ∧ DERIVATIVES_ENABLED then
        applyDerivativesFilter signal d
      else signal
  | Option.none => signal

/-- Ordered filter chain of get_signal, applied to the dispatched strategy
signal. -/
def filterChain (regime : MarketRegime) (s : IndicatorSnapshot)
    (higher_tf_data : List (String × HtfData)) (funding_rate : Option ℚ)
    (ob_imbalance news_score : ℚ) (derivatives_data : Option DerivData)
    (signal : TradeSignal) : TradeSignal :=
  stepDerivatives derivatives_data
    (stepNews news_score
      (stepOb ob_imbalance
        (stepFunding funding_rate
          (stepMtf higher_tf_data
            (stepChoppy s
              (stepTrendingWeak regime signal))))))

/-- StrategyManager.get_signal. A Python None or empty higher_tf_data dict is
the empty list; funding_rate None is Option.none; a None or empty
derivatives_data dict is Option.none. -/
def get_signal (st : ManagerState) (s : IndicatorSnapshot) (symbol : String)
    (higher_tf_data : List (String × HtfData)) (funding_rate : Option ℚ)
    (ob_imbalance news_score : ℚ) (bar_index : Int)
    (derivatives_data : Option DerivData) :
    TradeSignal × MarketRegime × ManagerState :=
  let regime0 := classify s derivatives_data
  -- MTF regime confirmation: only when the 15m regime is TRENDING.
  let rs :=
    if regime0 = MarketRegime.TRENDING ∧ higher_tf_data ≠ [] ∧ MTF_REGIME_CONFIRMATION then
      confirmRegime st regime0 higher_tf_data symbol
    else (regime0, st)
  let regime := rs.1
  let st1 := rs.2
  -- Regime change wait guard; REGIME_CHANGE_WAIT_BARS = 0 disables it, the
  -- block is embedded for structural fidelity.
  let ws : ManagerState × Option TradeSignal :=
    if REGIME_CHANGE_WAIT_BARS > 0 ∧ bar_index > 0 then
      let stw :=
        match alistGet? st1.lastRegime symbol with
        | some prev =>
            if prev ≠ regimeValue regime then
              { st1 with regimeChangeBar := alistSet st1.regimeChangeBar symbol bar_index }
            else st1
        | Option.none => st1
      let stw := { stw with lastRegime := alistSet stw.lastRegime symbol (regimeValue regime) }
      let change_bar := (alistGet? stw.regimeChangeBar symbol).getD (-REGIME_CHANGE_WAIT_BARS)
      if bar_index - change_bar < REGIME_CHANGE_WAIT_BARS then
        (stw, some ({ signal := Signal.HOLD, confidence := 0, strategy := "",
                      symbol := symbol, entry_price := 0, stop_loss := 0,
                      take_profit := 0,
                      reason := "Regime change wait" } : TradeSignal))
      else (stw, Option.none)
    else (st1, Option.none)
  match ws.2 with
  | some hold => (hold, regime, ws.1)
  | Option.none =>
    let signal := analyzeForRegime regime s symbol
    let signal := filterChain regime s higher_tf_data funding_rate ob_imbalance
      news_score derivatives_data signal
    (signal, regime, ws.1)

/-! Performance tracker (adaptive/performance_tracker.py). -/

/-- Python float value of a profit factor: finite rational or positive
infinity, as produced by PerformanceTracker._compute_metrics. -/
inductive PFVal
  | fin (q : ℚ)
  | inf
deriving DecidableEq, Repr

/-- Comparison profit_factor > c. Infinity exceeds every threshold. -/
def PFVal.gtb : PFVal → ℚ → Bool
  | PFVal.fin q, c => decide (q > c)
  | PFVal.inf, _ => true

/-- Comparison profit_factor < c. Infinity is below no threshold. -/
def PFVal.ltb : PFVal → ℚ → Bool
  | PFVal.fin q, c => decide (q < c)
  | PFVal.inf, _ => false

/-- Numeric value of a finite profit factor. Every arithmetic read in the
adaptive controller is guarded by a comparison that excludes infinity, so
the value returned for infinity is immaterial. -/
def PFVal.toQ : PFVal → ℚ
  | PFVal.fin q => q
  | PFVal.inf => 0

/-- TradeRecord dataclass. Entry and exit times are opaque timestamps; no
embedded computation reads them. -/
structure TradeRecord where
  strategy : String
  symbol : String := ""
  side : String := ""
  pnl : ℚ
  pnl_pct : ℚ := 0
  entry_time : Int := 0
  exit_time : Int := 0
  exit_reason : String := ""
  confidence : ℚ := 0
  risk : ℚ := 0
  reward : ℚ := 0
deriving DecidableEq, Repr

/-- StrategyMetrics dataclass with its Python defaults. -/
structure StrategyMetrics where
  trade_count : ℕ := 0
  win_count : ℕ := 0
  win_rate : ℚ := 0
  profit_factor : PFVal := PFVal.fin 1
  avg_pnl : ℚ := 0
  avg_rr_achieved : ℚ := 0
  total_pnl : ℚ := 0
  current_streak : Int := 0
  max_losing_streak : ℕ := 0
  recent_trend : ℚ := 0
deriving DecidableEq, Repr

/-- Rolling state of PerformanceTracker: per-strategy windows, the global
window, per-strategy streaks, the overall streak and its worst value. -/
structure PerformanceTracker where
  lookback : ℕ
  min_trades : ℕ
  trades : List (String × List TradeRecord) := []
  all_trades : List TradeRecord := []
  streaks : List (String × Int) := []
  overall_streak : Int := 0
  overall_max_losing : ℕ := 0
deriving DecidableEq, Repr

/-- Append to a deque with maxlen cap: the oldest entries beyond the
capacity are evicted from the front. -/
def dequeAppend {α : Type} (cap : ℕ) (xs : List α) (x : α) : List α :=
  let ys := xs ++ [x]
  if ys.length > cap then ys.drop (ys.length - cap) else ys

/-- PerformanceTracker.__init__. -/
def initTracker (lookback_trades min_trades_for_adaptation : ℕ) :
    PerformanceTracker :=
  { lookback := lookback_trades, min_trades := min_trades_for_adaptation }

/-- PerformanceTracker.record_trade. -/
def record_trade (t : PerformanceTracker) (trade : TradeRecord) :
    PerformanceTracker :=
  let strategy := trade.strategy
  -- Initialize the deque and streak for a new strategy.
  let t :=
    if (alistGet? t.trades strategy).isNone then
      { t with
        trades := alistSet t.trades strategy []
        streaks := alistSet t.streaks strategy 0 }
    else t
  let sdeque := (alistGet? t.trades strategy).getD []
  let t :=
    { t with
      trades := alistSet t.trades strategy (dequeAppend t.lookback sdeque trade)
      all_trades := dequeAppend t.lookback t.all_trades trade }
  -- Update streaks.
  let sstreak := (alistGet? t.streaks strategy).getD 0
  if trade.pnl > 0 then
    let t :=
      { t with
        streaks := alistSet t.streaks strategy
          (if sstreak > 0 then sstreak + 1 else 1) }
    { t with
      overall_streak := if t.overall_streak > 0 then t.overall_streak + 1 else 1 }
  else
    let t :=
      { t with
        streaks := alistSet t.streaks strategy
          (if sstreak < 0 then sstreak - 1 else -1) }
    let t :=
      { t with
        overall_streak := if t.overall_streak < 0 then t.overall_streak - 1 else -1 }
    { t with
      overall_max_losing := max t.overall_max_losing t.overall_streak.natAbs }

/-- Cumulative partial sums of a PnL series. -/
def cumPnl : List ℚ → ℚ → List ℚ
  | [], _ => []
  | p :: rest, running => (running + p) :: cumPnl rest (running + p)

/-- PerformanceTracker._compute_pnl_trend: clamped least-squares slope of
min-max-normalized cumulative PnL against normalized index. -/
def computePnlTrend (trades : List TradeRecord) : ℚ :=
  if trades.length < 3 then 0
  else
    match cumPnl (trades.map fun t => t.pnl) 0 with
    | [] => 0
    | y0 :: ytail =>
      let y := y0 :: ytail
      let yMax := ytail.foldl max y0
      let yMin := ytail.foldl min y0
      let yRange := yMax - yMin
      if yRange < 1/10^10 then 0
      else
        let n : ℚ := y.length
        let yNorm := y.map fun v => (v - yMin) / yRange
        let xNorm := (List.range y.length).map fun i => (i : ℚ) / n
        let xMean := xNorm.sum / n
        let yMean := yNorm.sum / n
        let numerator := (List.zip xNorm yNorm).foldl
          (fun acc p => acc + (p.1 - xMean) * (p.2 - yMean)) 0
        let denominator := xNorm.foldl (fun acc v => acc + (v - xMean) ^ 2) 0
        if denominator < 1/10^10 then 0
        else max (-1) (min 1 (numerator / denominator))

/-- Longest run of non-positive PnL within a trade window. -/
def maxLosingStreak (trades : List TradeRecord) : ℕ :=
  (trades.foldl
    (fun acc t =>
      if t.pnl ≤ 0 then (acc.1 + 1, max acc.2 (acc.1 + 1)) else (0, acc.2))
    ((0, 0) : ℕ × ℕ)).2

/-- PerformanceTracker._compute_metrics. -/
def computeMetrics (trades : List TradeRecord) (streak : Int) : StrategyMetrics :=
  if trades = [] then {}
  else
    let wins := trades.filter fun t => decide (t.pnl > 0)
    let losses := trades.filter fun t => decide (t.pnl ≤ 0)
    let trade_count := trades.length
    let win_count := wins.length
    let win_rate := (win_count : ℚ) / (trade_count : ℚ)
    let gross_profit := (wins.map fun t => t.pnl).sum
    let gross_loss := |(losses.map fun t => t.pnl).sum|
    let profit_factor :=
      if gross_loss > 0 then PFVal.fin (gross_profit / gross_loss)
      else if gross_profit > 0 then PFVal.inf
      else PFVal.fin 1
    let avg_pnl := (trades.map fun t => t.pnl).sum / (trade_count : ℚ)
    let total_pnl := (trades.map fun t => t.pnl).sum
    -- Average reward-to-risk achieved.
    let rr_values := (trades.filter fun t => decide (t.risk > 0)).map
      fun t => if t.pnl > 0 then |t.pnl| / t.risk else -(|t.pnl| / t.risk)
    let avg_rr := if rr_values = [] then 0 else rr_values.sum / (rr_values.length : ℚ)
    { trade_count := trade_count
      win_count := win_count
      win_rate := win_rate
      profit_factor := profit_factor
      avg_pnl := avg_pnl
      avg_rr_achieved := avg_rr
      total_pnl := total_pnl
      current_streak := streak
      max_losing_streak := maxLosingStreak trades
      recent_trend := computePnlTrend trades }

/-- PerformanceTracker.has_enough_data. -/
def has_enough_data (t : PerformanceTracker) (strategy : String) : Bool :=
  ((alistGet? t.trades strategy).getD []).length ≥ t.min_trades

/-- PerformanceTracker.get_strategy_metrics. -/
def get_strategy_metrics (t : PerformanceTracker) (strategy : String) :
    StrategyMetrics :=
  computeMetrics ((alistGet? t.trades strategy).getD [])
    ((alistGet? t.streaks strategy).getD 0)

/-- PerformanceTracker.get_overall_metrics. -/
def get_overall_metrics (t : PerformanceTracker) : StrategyMetrics :=
  computeMetrics t.all_trades t.overall_streak

/-! Adaptive controller (adaptive/adaptive_controller.py). -/

/-- AdaptiveOverrides dataclass. Dict fields are association lists. -/
structure AdaptiveOverrides where
  min_confidence : List (String × ℚ) := []
  position_size_scale : List (String × ℚ) := []
  strategy_enabled : List (String × Bool) := []
  leverage_scale : ℚ := 1
  sl_atr_multiplier : ℚ := 3/2
  rr_ratio : ℚ := 2
deriving DecidableEq, Repr

/-- Module-level _DEFAULT_CONFIDENCE dict with the controller fallback to
settings.MIN_SIGNAL_CONFIDENCE. -/
def defaultConfidence (strategy : String) : ℚ :=
  if strategy = "momentum" then 78/100
  else if strategy = "mean_reversion" then 72/100
  else if strategy = "breakout" then 70/100
  else MIN_SIGNAL_CONFIDENCE

/-- AdaptiveController._compute_confidence. -/
def computeConfidence (strategy : String) (metrics : StrategyMetrics)
    (has_data : Bool) : ℚ :=
  let base := defaultConfidence strategy
  if ¬ has_data then base
  else
    let adjustment : ℚ := 0
    -- Win rate adjustment.
    let adjustment :=
      if metrics.win_rate > 50/100 then
        adjustment - (10/100) * (min (metrics.win_rate - 50/100) (15/100) / (15/100))
      else if metrics.win_rate < 40/100 then
        adjustment + (5/100) * (min (40/100 - metrics.win_rate) (15/100) / (15/100))
      else adjustment
    -- Profit factor bonus and penalty.
    let adjustment :=
      if PFVal.gtb metrics.profit_factor (3/2) then adjustment - 3/100 else adjustment
    let adjustment :=
      if PFVal.ltb metrics.profit_factor (7/10) then adjustment + 3/100 else adjustment
    -- Trend bonus.
    let adjustment :=
      if metrics.recent_trend > 5/10 then adjustment - 3/100 else adjustment
    -- Clamp total adjustment, then hard bounds.
    let adjustment := max (-(10/100)) (min (8/100) adjustment)
    max (60/100) (min (90/100) (base + adjustment))

/-- AdaptiveController._compute_size_scale. -/
def computeSizeScale (strategy : String) (metrics : StrategyMetrics)
    (has_data : Bool) : ℚ :=
  if ¬ has_data then 1
  else
    let pf := metrics.profit_factor
    -- Profit factor scaling, piecewise linear.
    let scale : ℚ :=
      if PFVal.gtb pf 2 then 2
      else if PFVal.gtb pf (3/2) then 12/10 + (8/10) * ((PFVal.toQ pf - 3/2) / (5/10))
      else if PFVal.gtb pf 1 then 1 + (2/10) * ((PFVal.toQ pf - 1) / (5/10))
      else if PFVal.gtb pf (5/10) then 3/10 + (7/10) * ((PFVal.toQ pf - 5/10) / (5/10))
      else 25/100
    -- Streak penalty and bonus.
    let scale := if metrics.current_streak ≤ -4 then scale * (5/10) else scale
    let scale := if metrics.current_streak ≥ 4 then scale * (125/100) else scale
    -- Trend multiplier.
    let scale :=
      if metrics.recent_trend > 6/10 then scale * (12/10)
      else if metrics.recent_trend < -(6/10) then scale * (7/10)
      else scale
    max (15/100) (min 2 scale)

/-- AdaptiveController._compute_leverage_scale. -/
def computeLeverageScale (t : PerformanceTracker) (overall : StrategyMetrics) : ℚ :=
  let has_overall_data := t.all_trades.length ≥ t.min_trades
  if ¬ has_overall_data then 1
  else
    let pf := overall.profit_factor
    let scale : ℚ :=
      if PFVal.gtb pf (12/10) then 1
      else if PFVal.gtb pf (8/10) then 7/10 + (3/10) * (PFVal.toQ pf - 8/10) / (4/10)
      else 7/10
    let scale := if overall.current_streak ≤ -6 then min scale (6/10) else scale
    max (6/10) (min 1 scale)

/-- AdaptiveController._compute_sl_multiplier. -/
def computeSlMultiplier (t : PerformanceTracker) (overall : StrategyMetrics) : ℚ :=
  let has_data := t.all_trades.length ≥ t.min_trades
  let base := STOP_LOSS_ATR_MULTIPLIER
  if ¬ has_data then base
  else
    let result :=
      if overall.win_rate > 50/100 then
        base - (15/100) * (min (overall.win_rate - 50/100) (15/100) / (15/100))
      else if overall.win_rate < 35/100 then
        base + (2/10) * (min (35/100 - overall.win_rate) (15/100) / (15/100))
      else base
    max (12/10) (min 2 result)

/-- AdaptiveController._compute_rr_ratio. -/
def computeRrRatio (t : PerformanceTracker) (overall : StrategyMetrics)
    (strategies : List (String × StrategyMetrics)) : ℚ :=
  let has_data := t.all_trades.length ≥ t.min_trades
  let base := rewardRiskRatioDefault
  if ¬ has_data then base
  else
    -- Use the best-performing strategy achieved reward-to-risk as signal.
    let best_rr := strategies.foldl
      (fun best p =>
        if p.2.trade_count ≥ 5 ∧ p.2.avg_rr_achieved > best then p.2.avg_rr_achieved
        else best) 0
    let result :=
      if best_rr > 5/2 then base + (3/10) * (min (best_rr - 5/2) 1 / 1)
      else if best_rr > 0 ∧ best_rr < 3/2 then base - (3/10) * (min (3/2 - best_rr) 1 / 1)
      else base
    max (3/2) (min (5/2) result)

/-- Strategy list iterated by AdaptiveController.compute_overrides. -/
def adaptiveStrategies : List String := ["momentum", "mean_reversion", "breakout"]

/-- AdaptiveController.compute_overrides. -/
def compute_overrides (t : PerformanceTracker) : AdaptiveOverrides :=
  let overall := get_overall_metrics t
  let strategy_metrics := adaptiveStrategies.map fun s => (s, get_strategy_metrics t s)
  let overrides := adaptiveStrategies.foldl
    (fun (o : AdaptiveOverrides) strat =>
      let metrics := get_strategy_metrics t strat
      let has_data := has_enough_data t strat
      { o with
        min_confidence :=
          alistSet o.min_confidence strat (computeConfidence strat metrics has_data)
        position_size_scale :=
          alistSet o.position_size_scale strat (computeSizeScale strat metrics has_data)
        strategy_enabled := alistSet o.strategy_enabled strat true })
    ({} : AdaptiveOverrides)
  { overrides with
    leverage_scale := computeLeverageScale t overall
    sl_atr_multiplier := computeSlMultiplier t overall
    rr_ratio := computeRrRatio t overall strategy_metrics }

/-! Shared helper lemmas. -/

/-- Hard clamp max a (min b x) stays within [a, b] whenever a ≤ b. -/
theorem clamp_mem (a b x : ℚ) (h : a ≤ b) :
    a ≤ max a (min b x) ∧ max a (min b x) ≤ b :=
  ⟨le_max_left a _, max_le h (min_le_left b x)⟩

/-- Values of clamp01 lie in the unit interval. -/
theorem clamp01_mem (x : ℚ) : 0 ≤ clamp01 x ∧ clamp01 x ≤ 1 :=
  clamp_mem 0 1 x (by norm_num)

/-- A halted risk manager blocks every call and keeps its state. -/
theorem halted_blocks (rm : RiskManager) (h : rm.trading_halted = true)
    (pv : ℚ) (m : ℕ) :
    (check_circuit_breakers rm pv m).1 = false ∧
    (check_circuit_breakers rm pv m).2 = rm := by
  unfold check_circuit_breakers
  simp [h]

/-! Claim C10: the classifier only produces four of the six regimes. -/

/-- C10: MarketAnalyzer.classify only ever returns RANGING, VOLATILE,
TRENDING or SQUEEZE_RISK, for every indicator snapshot and optional
derivatives snapshot; the remaining two enum values TRENDING_STRONG and
TRENDING_WEAK are never produced by the classifier and do arise from the
graduated multi-timeframe regime confirmation of the strategy manager. -/
theorem classify_four_regimes :
    (∀ (s : IndicatorSnapshot) (d : Option DerivData),
      classify s d = MarketRegime.RANGING ∨ classify s d = MarketRegime.VOLATILE ∨
      classify s d = MarketRegime.TRENDING ∨ classify s d = MarketRegime.SQUEEZE_RISK) ∧
    (∃ (st : ManagerState) (htf : List (String × HtfData)) (symbol : String),
      (confirmRegime st MarketRegime.TRENDING htf symbol).1
        = MarketRegime.TRENDING_STRONG) ∧
    (∃ (st : ManagerState) (htf : List (String × HtfData)) (symbol : String),
      (confirmRegime st MarketRegime.TRENDING htf symbol).1
        = MarketRegime.TRENDING_WEAK) := by
  refine ⟨?_, ?_, ?_⟩
  · intro s d
    rcases d with _ | d <;>
      simp only [classify, decide_eq_true_eq] <;>
      split_ifs <;> simp_all
  · exact ⟨{}, [("4h", { isEmpty := false, adx := 30, trend := Trend.neutral })],
      "BTC/USDT", by decide⟩
  · exact ⟨{}, [("4h", { isEmpty := false, adx := 20, trend := Trend.neutral })],
      "BTC/USDT", by decide⟩

/-! Claim C4: data glitches block the tick without tripping the breaker. -/

/-- C4: if the risk manager is not halted and check_circuit_breakers is
called with a non-positive portfolio value, or with a positive daily
starting value and a portfolio value below half of it, the call returns
false while leaving the whole risk-manager state unchanged, in particular
without setting the halt flag. -/
theorem circuit_breaker_data_glitch (rm : RiskManager) (pv : ℚ) (n : ℕ)
    (hh : rm.trading_halted = false)
    (hg : pv ≤ 0 ∨ (rm.daily_starting_value > 0 ∧
      pv < rm.daily_starting_value * (50/100))) :
    (check_circuit_breakers rm pv n).1 = false ∧
    (check_circuit_breakers rm pv n).2 = rm ∧
    (check_circuit_breakers rm pv n).2.trading_halted = false := by
  have key : (check_circuit_breakers rm pv n) = (false, rm) := by
    unfold check_circuit_breakers
    rcases hg with hg | hg
    · simp [hh, hg]
    · have h1 : ¬ (rm.trading_halted = true) := by simp [hh]
      rw [if_neg h1]
      by_cases h2 : pv ≤ 0
      · rw [if_pos h2]
      · rw [if_neg h2, if_pos hg]
  refine ⟨by rw [key], by rw [key], by rw [key, hh]⟩

/-- Witness for C4 at a concrete state and input. -/
theorem circuit_breaker_data_glitch_witness :
    (check_circuit_breakers { daily_starting_value := 100 } 0 0).1 = false ∧
    (check_circuit_breakers { daily_starting_value := 100 } 0 0).2
      = { daily_starting_value := 100 } ∧
    (check_circuit_breakers { daily_starting_value := 100 } 0 0).2.trading_halted
      = false :=
  circuit_breaker_data_glitch { daily_starting_value := 100 } 0 0 rfl
    (Or.inl (by norm_num))

/-! Claim C3: the daily loss limit trips the breaker and latches until the
daily reset. -/

/-- C3: with daily_starting_value 100 and the configured daily loss limit
of 12 percent, a check_circuit_breakers call at portfolio value 87 returns
false and halts trading with a reason starting with the words Daily loss
limit; afterwards every call returns false with unchanged state, whatever
its arguments, and reset_daily clears the halt flag and the reason. -/
theorem daily_loss_limit_halts (rm : RiskManager) (n : ℕ)
    (hh : rm.trading_halted = false)
    (hd : rm.daily_starting_value = 100) :
    (check_circuit_breakers rm 87 n).1 = false ∧
    (check_circuit_breakers rm 87 n).2.trading_halted = true ∧
    (∃ t : String,
      (check_circuit_breakers rm 87 n).2.halt_reason = "Daily loss limit" ++ t) ∧
    (∀ (pv : ℚ) (m : ℕ),
      (check_circuit_breakers (check_circuit_breakers rm 87 n).2 pv m).1 = false ∧
      (check_circuit_breakers (check_circuit_breakers rm 87 n).2 pv m).2
        = (check_circuit_breakers rm 87 n).2) ∧
    (∀ v : ℚ,
      (reset_daily (check_circuit_breakers rm 87 n).2 v).trading_halted = false ∧
      (reset_daily (check_circuit_breakers rm 87 n).2 v).halt_reason = "") := by
  have key : check_circuit_breakers rm 87 n =
      (false, { rm with
        trading_halted := true
        halt_reason := "Daily loss limit hit: " ++ fmtPct ((87 - 100) / 100) }) := by
    unfold check_circuit_breakers
    rw [hh, hd]
    norm_num [DAILY_LOSS_LIMIT_PCT]
  rw [key]
  refine ⟨rfl, rfl, ?_, ?_, ?_⟩
  · refine ⟨" hit: " ++ fmtPct ((87 - 100) / 100), ?_⟩
    show "Daily loss limit hit: " ++ fmtPct ((87 - 100) / 100)
      = "Daily loss limit" ++ (" hit: " ++ fmtPct ((87 - 100) / 100))
    rw [← String.append_assoc]
    congr 1
  · intro pv m
    exact halted_blocks _ rfl pv m
  · intro v
    exact ⟨rfl, rfl⟩

/-- Witness for C3 at a concrete initial state. -/
theorem daily_loss_limit_halts_witness :
    (check_circuit_breakers { daily_starting_value := 100 } 87 0).1 = false ∧
    (check_circuit_breakers { daily_starting_value := 100 } 87 0).2.trading_halted
      = true ∧
    (∃ t : String,
      (check_circuit_breakers { daily_starting_value := 100 } 87 0).2.halt_reason
        = "Daily loss limit" ++ t) ∧
    (∀ (pv : ℚ) (m : ℕ),
      (check_circuit_breakers
        (check_circuit_breakers { daily_starting_value := 100 } 87 0).2 pv m).1
        = false ∧
      (check_circuit_breakers
        (check_circuit_breakers { daily_starting_value := 100 } 87 0).2 pv m).2
        = (check_circuit_breakers { daily_starting_value := 100 } 87 0).2) ∧
    (∀ v : ℚ,
      (reset_daily
        (check_circuit_breakers { daily_starting_value := 100 } 87 0).2 v).trading_halted
        = false ∧
      (reset_daily
        (check_circuit_breakers { daily_starting_value := 100 } 87 0).2 v).halt_reason
        = "") :=
  daily_loss_limit_halts { daily_starting_value := 100 } 0 rfl rfl

/-! Claim C1: the loss at the stop never exceeds the allocated margin. -/

/-- Confidence scaling factor of position sizing is nonnegative. -/
theorem confScale_nonneg (x : ℚ) : (0:ℚ) ≤ 6/10 + 4/10 * max 0 (min 1 x) := by
  have h := le_max_left (0:ℚ) (min 1 x)
  nlinarith

/-- Allocated margin is nonnegative whenever the portfolio value is. -/
theorem allocatedMargin_nonneg (rm : RiskManager) (sig : TradeSignal)
    (pv : ℚ) (regime : String) (hpv : 0 ≤ pv) :
    0 ≤ allocatedMargin rm sig pv regime := by
  simp only [allocatedMargin, MAX_POSITION_PCT, VOLATILE_REGIME_SIZING]
  split_ifs <;> positivity

/-- C1: for a non-HOLD signal with a positive per-unit stop distance and a
nonnegative portfolio value, the sized quantity times the per-unit stop
distance never exceeds the margin allocated to the trade after the regime,
confidence and drawdown scalings. -/
theorem position_size_loss_bounded (rm : RiskManager) (sig : TradeSignal)
    (pv price : ℚ) (regime : String)
    (hsig : sig.signal ≠ Signal.HOLD)
    (hrisk : 0 < |price - sig.stop_loss|)
    (hpv : 0 ≤ pv) :
    calculate_position_size rm sig pv price regime * |price - sig.stop_loss|
      ≤ allocatedMargin rm sig pv regime := by
  have hm := allocatedMargin_nonneg rm sig pv regime hpv
  simp only [calculate_position_size]
  rw [if_neg hsig, if_neg (not_le.mpr hrisk)]
  set m := allocatedMargin rm sig pv regime with hmdef
  set r := |price - sig.stop_loss| with hrdef
  split_ifs with hq
  · simpa using hm
  · have hqle : min (min (m * LEVERAGE / price) (m / r)) (m * LEVERAGE / price)
        ≤ m / r :=
      le_trans (min_le_left _ _) (min_le_right _ _)
    calc min (min (m * LEVERAGE / price) (m / r)) (m * LEVERAGE / price) * r
        ≤ m / r * r := mul_le_mul_of_nonneg_right hqle (le_of_lt hrisk)
      _ = m := div_mul_cancel₀ m (ne_of_gt hrisk)

/-- Witness for C1 at a concrete signal and portfolio. -/
theorem position_size_loss_bounded_witness :
    calculate_position_size {}
        { signal := Signal.BUY, confidence := 9/10, strategy := "momentum",
          symbol := "BTC/USDT", entry_price := 100, stop_loss := 95,
          take_profit := 110 } 1000 100 "" * |(100:ℚ) - 95|
      ≤ allocatedMargin {}
        { signal := Signal.BUY, confidence := 9/10, strategy := "momentum",
          symbol := "BTC/USDT", entry_price := 100, stop_loss := 95,
          take_profit := 110 } 1000 "" :=
  position_size_loss_bounded {} _ 1000 100 ""
    (by decide)
    (abs_pos.mpr (by norm_num))
    (by norm_num)

/-! Claim C6: tight stops are widened to the floor, never rejected. -/

/-- Per-strategy reward to risk ratios are positive. -/
theorem strategyRewardRiskRatio_pos (strategy : String) :
    0 < strategyRewardRiskRatio strategy := by
  unfold strategyRewardRiskRatio rewardRiskRatioDefault
  split_ifs <;> norm_num

/-- C6: a non-HOLD signal meeting its strategy confidence threshold with a
positive stop whose distance is below the floor gets its stop widened to
exactly the floor distance and its take profit rebuilt at the per-strategy
reward to risk ratio on the side matching the direction, and validation
returns true. -/
theorem validate_signal_widens_tight_stop (sig : TradeSignal)
    (hsig : sig.signal ≠ Signal.HOLD)
    (hconf : STRATEGY_MIN_CONFIDENCE sig.strategy ≤ sig.confidence)
    (hsl : 0 < sig.stop_loss)
    (htight : |sig.entry_price - sig.stop_loss|
      < sig.entry_price * MIN_SL_DISTANCE_PCT) :
    (validate_signal sig).1 = true ∧
    (validate_signal sig).2.entry_price = sig.entry_price ∧
    |(validate_signal sig).2.entry_price - (validate_signal sig).2.stop_loss|
      = sig.entry_price * MIN_SL_DISTANCE_PCT ∧
    (sig.signal = Signal.BUY →
      (validate_signal sig).2.stop_loss
        = sig.entry_price - sig.entry_price * MIN_SL_DISTANCE_PCT ∧
      (validate_signal sig).2.take_profit
        = sig.entry_price + sig.entry_price * MIN_SL_DISTANCE_PCT *
            strategyRewardRiskRatio sig.strategy) ∧
    (sig.signal = Signal.SELL →
      (validate_signal sig).2.stop_loss
        = sig.entry_price + sig.entry_price * MIN_SL_DISTANCE_PCT ∧
      (validate_signal sig).2.take_profit
        = sig.entry_price - sig.entry_price * MIN_SL_DISTANCE_PCT *
            strategyRewardRiskRatio sig.strategy) := by
  have hc : (0:ℚ) < MIN_SL_DISTANCE_PCT := by norm_num [MIN_SL_DISTANCE_PCT]
  have hE : 0 < sig.entry_price := by
    by_contra hE
    push_neg at hE
    have h1 : sig.entry_price * MIN_SL_DISTANCE_PCT ≤ 0 :=
      mul_nonpos_of_nonpos_of_nonneg hE (le_of_lt hc)
    have h2 := abs_nonneg (sig.entry_price - sig.stop_loss)
    linarith
  have hd : 0 < sig.entry_price * MIN_SL_DISTANCE_PCT := by positivity
  have hrr := strategyRewardRiskRatio_pos sig.strategy
  have hpct : |sig.entry_price - sig.stop_loss| / sig.entry_price
      < MIN_SL_DISTANCE_PCT := by
    rw [div_lt_iff hE]
    linarith [htight, mul_comm sig.entry_price MIN_SL_DISTANCE_PCT]
  simp only [validate_signal]
  rw [if_neg hsig, if_neg (not_lt.mpr hconf), if_neg (not_le.mpr hsl),
    if_pos hpct]
  rcases sig_cases : sig.signal with _ | _ | _
  · -- BUY
    rw [if_pos rfl]
    have hrisk : |sig.entry_price -
        (sig.entry_price - sig.entry_price * MIN_SL_DISTANCE_PCT)|
        = sig.entry_price * MIN_SL_DISTANCE_PCT := by
      rw [show sig.entry_price -
          (sig.entry_price - sig.entry_price * MIN_SL_DISTANCE_PCT)
          = sig.entry_price * MIN_SL_DISTANCE_PCT by ring]
      exact abs_of_pos hd
    have hreward : |sig.entry_price + sig.entry_price * MIN_SL_DISTANCE_PCT *
          strategyRewardRiskRatio sig.strategy - sig.entry_price|
        = sig.entry_price * MIN_SL_DISTANCE_PCT *
          strategyRewardRiskRatio sig.strategy := by
      rw [show sig.entry_price + sig.entry_price * MIN_SL_DISTANCE_PCT *
          strategyRewardRiskRatio sig.strategy - sig.entry_price
          = sig.entry_price * MIN_SL_DISTANCE_PCT *
            strategyRewardRiskRatio sig.strategy by ring]
      exact abs_of_pos (by positivity)
    rw [if_neg]
    · exact ⟨rfl, rfl, hrisk, fun _ => ⟨rfl, rfl⟩,
        fun hS => absurd hS (by decide)⟩
    · simp only [hrisk, hreward]
      rintro ⟨-, hlt⟩
      rw [mul_div_cancel_left₀ _ (ne_of_gt hd)] at hlt
      linarith
  · -- SELL
    rw [if_neg (show ¬ (Signal.SELL = Signal.BUY) by decide)]
    have hrisk : |sig.entry_price -
        (sig.entry_price + sig.entry_price * MIN_SL_DISTANCE_PCT)|
        = sig.entry_price * MIN_SL_DISTANCE_PCT := by
      rw [show sig.entry_price -
          (sig.entry_price + sig.entry_price * MIN_SL_DISTANCE_PCT)
          = -(sig.entry_price * MIN_SL_DISTANCE_PCT) by ring, abs_neg]
      exact abs_of_pos hd
    have hreward : |sig.entry_price - sig.entry_price * MIN_SL_DISTANCE_PCT *
          strategyRewardRiskRatio sig.strategy - sig.entry_price|
        = sig.entry_price * MIN_SL_DISTANCE_PCT *
          strategyRewardRiskRatio sig.strategy := by
      rw [show sig.entry_price - sig.entry_price * MIN_SL_DISTANCE_PCT *
          strategyRewardRiskRatio sig.strategy - sig.entry_price
          = -(sig.entry_price * MIN_SL_DISTANCE_PCT *
              strategyRewardRiskRatio sig.strategy) by ring, abs_neg]
      exact abs_of_pos (by positivity)
    rw [if_neg]
    · exact ⟨rfl, rfl, hrisk, fun hB => absurd hB (by decide),
        fun _ => ⟨rfl, rfl⟩⟩
    · simp only [hrisk, hreward]
      rintro ⟨-, hlt⟩
      rw [mul_div_cancel_left₀ _ (ne_of_gt hd)] at hlt
      linarith
  · exact absurd sig_cases hsig

/-- Witness for C6 at a concrete tight-stopped BUY signal. -/
theorem validate_signal_widens_tight_stop_witness :
    (validate_signal
        { signal := Signal.BUY, confidence := 8/10, strategy := "momentum",
          symbol := "BTC/USDT", entry_price := 100, stop_loss := 199/2,
          take_profit := 101 }).1 = true ∧
    (validate_signal
        { signal := Signal.BUY, confidence := 8/10, strategy := "momentum",
          symbol := "BTC/USDT", entry_price := 100, stop_loss := 199/2,
          take_profit := 101 }).2.entry_price = 100 ∧
    |(validate_signal
        { signal := Signal.BUY, confidence := 8/10, strategy := "momentum",
          symbol := "BTC/USDT", entry_price := 100, stop_loss := 199/2,
          take_profit := 101 }).2.entry_price -
      (validate_signal
        { signal := Signal.BUY, confidence := 8/10, strategy := "momentum",
          symbol := "BTC/USDT", entry_price := 100, stop_loss := 199/2,
          take_profit := 101 }).2.stop_loss| = 100 * MIN_SL_DISTANCE_PCT ∧
    (Signal.BUY = Signal.BUY →
      (validate_signal
          { signal := Signal.BUY, confidence := 8/10, strategy := "momentum",
            symbol := "BTC/USDT", entry_price := 100, stop_loss := 199/2,
            take_profit := 101 }).2.stop_loss = 100 - 100 * MIN_SL_DISTANCE_PCT ∧
      (validate_signal
          { signal := Signal.BUY, confidence := 8/10, strategy := "momentum",
            symbol := "BTC/USDT", entry_price := 100, stop_loss := 199/2,
            take_profit := 101 }).2.take_profit
        = 100 + 100 * MIN_SL_DISTANCE_PCT * strategyRewardRiskRatio "momentum") ∧
    (Signal.BUY = Signal.SELL →
      (validate_signal
          { signal := Signal.BUY, confidence := 8/10, strategy := "momentum",
            symbol := "BTC/USDT", entry_price := 100, stop_loss := 199/2,
            take_profit := 101 }).2.stop_loss = 100 + 100 * MIN_SL_DISTANCE_PCT ∧
      (validate_signal
          { signal := Signal.BUY, confidence := 8/10, strategy := "momentum",
            symbol := "BTC/USDT", entry_price := 100, stop_loss := 199/2,
            take_profit := 101 }).2.take_profit
        = 100 - 100 * MIN_SL_DISTANCE_PCT * strategyRewardRiskRatio "momentum") :=
  validate_signal_widens_tight_stop
    { signal := Signal.BUY, confidence := 8/10, strategy := "momentum",
      symbol := "BTC/USDT", entry_price := 100, stop_loss := 199/2,
      take_profit := 101 }
    (by decide)
    (by norm_num [STRATEGY_MIN_CONFIDENCE])
    (by norm_num)
    (by
      show |(100:ℚ) - 199/2| < 100 * MIN_SL_DISTANCE_PCT
      rw [show (100:ℚ) - 199/2 = 1/2 by norm_num, abs_of_pos (by norm_num)]
      norm_num [MIN_SL_DISTANCE_PCT])

/-! Claim C7: adaptive overrides stay inside their hard bounds. -/

/-- Confidence thresholds stay in [0.60, 0.90] for every strategy, metrics
and data flag. -/
theorem computeConfidence_bounds (strategy : String) (m : StrategyMetrics)
    (hd : Bool) :
    60/100 ≤ computeConfidence strategy m hd ∧
      computeConfidence strategy m hd ≤ 90/100 := by
  have hbase : 60/100 ≤ defaultConfidence strategy ∧
      defaultConfidence strategy ≤ 90/100 := by
    unfold defaultConfidence MIN_SIGNAL_CONFIDENCE
    split_ifs <;> exact ⟨by norm_num, by norm_num⟩
  unfold computeConfidence
  by_cases h : hd = true
  · rw [if_neg (not_not_intro h)]
    exact clamp_mem _ _ _ (by norm_num)
  · rw [if_pos h]
    exact hbase

/-- Size scales stay in [0.15, 2.0]. -/
theorem computeSizeScale_bounds (strategy : String) (m : StrategyMetrics)
    (hd : Bool) :
    15/100 ≤ computeSizeScale strategy m hd ∧
      computeSizeScale strategy m hd ≤ 2 := by
  unfold computeSizeScale
  by_cases h : hd = true
  · rw [if_neg (not_not_intro h)]
    exact clamp_mem _ _ _ (by norm_num)
  · rw [if_pos h]
    exact ⟨by norm_num, by norm_num⟩

/-- Leverage scales stay in [0.6, 1.0]. -/
theorem computeLeverageScale_bounds (t : PerformanceTracker)
    (overall : StrategyMetrics) :
    6/10 ≤ computeLeverageScale t overall ∧ computeLeverageScale t overall ≤ 1 := by
  unfold computeLeverageScale
  by_cases h : t.all_trades.length ≥ t.min_trades
  · rw [if_neg (not_not_intro h)]
    exact clamp_mem _ _ _ (by norm_num)
  · rw [if_pos h]
    exact ⟨by norm_num, by norm_num⟩

/-- Stop-loss multipliers stay in [1.2, 2.0]. -/
theorem computeSlMultiplier_bounds (t : PerformanceTracker)
    (overall : StrategyMetrics) :
    12/10 ≤ computeSlMultiplier t overall ∧ computeSlMultiplier t overall ≤ 2 := by
  unfold computeSlMultiplier STOP_LOSS_ATR_MULTIPLIER
  by_cases h : t.all_trades.length ≥ t.min_trades
  · rw [if_neg (not_not_intro h)]
    exact clamp_mem _ _ _ (by norm_num)
  · rw [if_pos h]
    exact ⟨by norm_num, by norm_num⟩

/-- Reward to risk targets stay in [1.5, 2.5]. -/
theorem computeRrRatio_bounds (t : PerformanceTracker)
    (overall : StrategyMetrics) (strategies : List (String × StrategyMetrics)) :
    3/2 ≤ computeRrRatio t overall strategies ∧
      computeRrRatio t overall strategies ≤ 5/2 := by
  unfold computeRrRatio rewardRiskRatioDefault
  by_cases h : t.all_trades.length ≥ t.min_trades
  · rw [if_neg (not_not_intro h)]
    exact clamp_mem _ _ _ (by norm_num)
  · rw [if_pos h]
    exact ⟨by norm_num, by norm_num⟩

/-- C7: for every tracker state, compute_overrides returns per-strategy
position size scales in [0.15, 2.0] and confidence thresholds in
[0.60, 0.90], a leverage scale in [0.6, 1.0], a stop-loss ATR multiplier in
[1.2, 2.0] and a reward to risk ratio in [1.5, 2.5]. -/
theorem adaptive_overrides_bounded (t : PerformanceTracker) :
    (∀ p ∈ (compute_overrides t).position_size_scale,
      15/100 ≤ p.2 ∧ p.2 ≤ 2) ∧
    (∀ p ∈ (compute_overrides t).min_confidence,
      60/100 ≤ p.2 ∧ p.2 ≤ 90/100) ∧
    (6/10 ≤ (compute_overrides t).leverage_scale ∧
      (compute_overrides t).leverage_scale ≤ 1) ∧
    (12/10 ≤ (compute_overrides t).sl_atr_multiplier ∧
      (compute_overrides t).sl_atr_multiplier ≤ 2) ∧
    (3/2 ≤ (compute_overrides t).rr_ratio ∧
      (compute_overrides t).rr_ratio ≤ 5/2) := by
  refine ⟨?_, ?_, ?_, ?_, ?_⟩
  · intro p hp
    simp [compute_overrides, adaptiveStrategies, List.foldl, alistSet] at hp
    rcases hp with rfl | rfl | rfl
    · exact computeSizeScale_bounds "momentum" _ _
    · exact computeSizeScale_bounds "mean_reversion" _ _
    · exact computeSizeScale_bounds "breakout" _ _
  · intro p hp
    simp [compute_overrides, adaptiveStrategies, List.foldl, alistSet] at hp
    rcases hp with rfl | rfl | rfl
    · exact computeConfidence_bounds "momentum" _ _
    · exact computeConfidence_bounds "mean_reversion" _ _
    · exact computeConfidence_bounds "breakout" _ _
  · exact computeLeverageScale_bounds t (get_overall_metrics t)
  · exact computeSlMultiplier_bounds t (get_overall_metrics t)
  · exact computeRrRatio_bounds t (get_overall_metrics t) _

/-! Claim C5: confidence stays in [0, 1] after every stage. -/

/-- Confidence of a signal lies in the unit interval. -/
def conf01 (sig : TradeSignal) : Prop :=
  0 ≤ sig.confidence ∧ sig.confidence ≤ 1

/-- The TRENDING_WEAK penalty keeps confidence in [0, 1]. -/
theorem applyTrendingWeakPenalty_conf01 (sig : TradeSignal) (h : conf01 sig) :
    conf01 (applyTrendingWeakPenalty sig) := by
  obtain ⟨h0, h1⟩ := h
  unfold applyTrendingWeakPenalty TRENDING_WEAK_CONFIDENCE_PENALTY
  exact ⟨le_max_left _ _, max_le (by norm_num) (by linarith)⟩

/-- The choppy filter keeps confidence in [0, 1]. -/
theorem applyChoppyFilter_conf01 (sig : TradeSignal) (s : IndicatorSnapshot)
    (h : conf01 sig) : conf01 (applyChoppyFilter sig s) := by
  obtain ⟨h0, h1⟩ := h
  unfold applyChoppyFilter CHOPPY_CONFIDENCE_PENALTY
  split_ifs <;>
    first
      | exact ⟨h0, h1⟩
      | exact ⟨le_max_left _ _, max_le (by norm_num) (by linarith)⟩

/-- The multi-timeframe filter keeps confidence in [0, 1]. -/
theorem applyMtfFilter_conf01 (sig : TradeSignal)
    (htf : List (String × HtfData)) (h : conf01 sig) :
    conf01 (applyMtfFilter sig htf) := by
  obtain ⟨h0, h1⟩ := h
  unfold applyMtfFilter
  dsimp only
  split_ifs <;>
    first
      | exact ⟨h0, h1⟩
      | exact ⟨le_min (by norm_num) (add_nonneg h0 (by positivity)),
          min_le_left _ _⟩
      | exact ⟨le_refl 0, by norm_num⟩

/-- The funding filter keeps confidence in [0, 1]. -/
theorem applyFundingFilter_conf01 (sig : TradeSignal) (fr : ℚ)
    (h : conf01 sig) : conf01 (applyFundingFilter sig fr) := by
  unfold applyFundingFilter
  dsimp only
  split_ifs <;> first | exact h | exact clamp01_mem _

/-- The order book filter keeps confidence in [0, 1]. -/
theorem applyObFilter_conf01 (sig : TradeSignal) (ob : ℚ)
    (h : conf01 sig) : conf01 (applyObFilter sig ob) := by
  unfold applyObFilter
  dsimp only
  split_ifs <;> first | exact h | exact clamp01_mem _

/-- The news filter keeps confidence in [0, 1]. -/
theorem applyNewsFilter_conf01 (sig : TradeSignal) (news : ℚ)
    (h : conf01 sig) : conf01 (applyNewsFilter sig news) := by
  unfold applyNewsFilter
  dsimp only
  split_ifs <;> first | exact h | exact clamp01_mem _

/-- The derivatives filter keeps confidence in [0, 1]. -/
theorem applyDerivativesFilter_conf01 (sig : TradeSignal) (d : DerivData)
    (h : conf01 sig) : conf01 (applyDerivativesFilter sig d) := by
  unfold applyDerivativesFilter
  dsimp only
  split_ifs <;>
    first
      | exact h
      | exact clamp01_mem _
      | exact ⟨le_refl 0, by norm_num⟩

/-- Momentum signals leave analyze with clamped confidence. -/
theorem momentumAnalyze_conf01 (s : IndicatorSnapshot) (symbol : String) :
    conf01 (momentumAnalyze s symbol) := by
  unfold momentumAnalyze
  by_cases h1 : s.barCount < EMA_TREND + 5
  · rw [if_pos h1]
    exact ⟨le_refl 0, by norm_num [momentumHold]⟩
  · rw [if_neg h1]
    exact clamp01_mem _

/-- Mean reversion signals leave analyze with clamped confidence. -/
theorem meanReversionAnalyze_conf01 (s : IndicatorSnapshot) (symbol : String) :
    conf01 (meanReversionAnalyze s symbol) := by
  unfold meanReversionAnalyze
  by_cases h1 : s.barCount < BB_PERIOD + 5
  · rw [if_pos h1]
    exact ⟨le_refl 0, by norm_num [meanReversionHold]⟩
  · rw [if_neg h1]
    by_cases h2 : s.bbl = 0 ∨ s.bbu = 0
    · rw [if_pos h2]
      exact ⟨le_refl 0, by norm_num [meanReversionHold]⟩
    · rw [if_neg h2]
      exact clamp01_mem _

/-- Breakout signals leave analyze with clamped confidence. -/
theorem breakoutAnalyze_conf01 (s : IndicatorSnapshot) (symbol : String) :
    conf01 (breakoutAnalyze s symbol) := by
  unfold breakoutAnalyze
  dsimp only
  by_cases h1 : s.barCount < max EMA_TREND SR_LOOKBACK + 5
  · rw [if_pos h1]
    exact ⟨le_refl 0, by norm_num [breakoutHold]⟩
  · rw [if_neg h1]
    by_cases h2 : s.supportLevels = [] ∧ s.resistanceLevels = []
    · rw [if_pos h2]
      exact ⟨le_refl 0, by norm_num [breakoutHold]⟩
    · rw [if_neg h2]
      exact clamp01_mem _

/-- Every dispatched strategy emits a clamped confidence. -/
theorem analyzeForRegime_conf01 (regime : MarketRegime) (s : IndicatorSnapshot)
    (symbol : String) : conf01 (analyzeForRegime regime s symbol) := by
  cases regime <;>
    first
      | exact momentumAnalyze_conf01 s symbol
      | exact meanReversionAnalyze_conf01 s symbol
      | exact breakoutAnalyze_conf01 s symbol

/-- Step lemma for the TRENDING_WEAK stage of the chain. -/
theorem stepTrendingWeak_conf01 (regime : MarketRegime) (sig : TradeSignal)
    (h : conf01 sig) : conf01 (stepTrendingWeak regime sig) := by
  unfold stepTrendingWeak
  split_ifs
  · exact applyTrendingWeakPenalty_conf01 sig h
  · exact h

/-- Step lemma for the choppy stage of the chain. -/
theorem stepChoppy_conf01 (s : IndicatorSnapshot) (sig : TradeSignal)
    (h : conf01 sig) : conf01 (stepChoppy s sig) := by
  unfold stepChoppy
  split_ifs
  · exact applyChoppyFilter_conf01 sig s h
  · exact h

/-- Step lemma for the multi-timeframe stage of the chain. -/
theorem stepMtf_conf01 (htf : List (String × HtfData)) (sig : TradeSignal)
    (h : conf01 sig) : conf01 (stepMtf htf sig) := by
  unfold stepMtf
  split_ifs
  · exact applyMtfFilter_conf01 sig htf h
  · exact h

/-- Step lemma for the funding stage of the chain. -/
theorem stepFunding_conf01 (fr : Option ℚ) (sig : TradeSignal)
    (h : conf01 sig) : conf01 (stepFunding fr sig) := by
  cases fr with
  | none => exact h
  | some fr =>
    unfold stepFunding
    split_ifs
    · exact applyFundingFilter_conf01 sig fr h
    · exact h

/-- Step lemma for the order book stage of the chain. -/
theorem stepOb_conf01 (ob : ℚ) (sig : TradeSignal)
    (h : conf01 sig) : conf01 (stepOb ob sig) := by
  unfold stepOb
  split_ifs
  · exact applyObFilter_conf01 sig ob h
  · exact h

/-- Step lemma for the news stage of the chain. -/
theorem stepNews_conf01 (news : ℚ) (sig : TradeSignal)
    (h : conf01 sig) : conf01 (stepNews news sig) := by
  unfold stepNews
  split_ifs
  · exact applyNewsFilter_conf01 sig news h
  · exact h

/-- Step lemma for the derivatives stage of the chain. -/
theorem stepDerivatives_conf01 (dOpt : Option DerivData) (sig : TradeSignal)
    (h : conf01 sig) : conf01 (stepDerivatives dOpt sig) := by
  cases dOpt with
  | none => exact h
  | some d =>
    unfold stepDerivatives
    split_ifs
    · exact applyDerivativesFilter_conf01 sig d h
    · exact h

/-- The whole filter chain keeps confidence in [0, 1]. -/
theorem filterChain_conf01 (regime : MarketRegime) (s : IndicatorSnapshot)
    (htf : List (String × HtfData)) (fr : Option ℚ) (ob news : ℚ)
    (dOpt : Option DerivData) (sig : TradeSignal) (h : conf01 sig) :
    conf01 (filterChain regime s htf fr ob news dOpt sig) :=
  stepDerivatives_conf01 dOpt _ (stepNews_conf01 news _ (stepOb_conf01 ob _
    (stepFunding_conf01 fr _ (stepMtf_conf01 htf _ (stepChoppy_conf01 s _
      (stepTrendingWeak_conf01 regime sig h))))))

/-- The manager output signal carries a confidence in [0, 1]. -/
theorem get_signal_conf01 (st : ManagerState) (s : IndicatorSnapshot)
    (symbol : String) (htf : List (String × HtfData)) (frOpt : Option ℚ)
    (ob news : ℚ) (bar : Int) (dOpt : Option DerivData) :
    conf01 (get_signal st s symbol htf frOpt ob news bar dOpt).1 :=
  filterChain_conf01 _ s htf frOpt ob news dOpt _
    (analyzeForRegime_conf01 _ s symbol)

/-- C5: for every input, including adversarial extremes of the scalar
filters, the confidence of the signal is inside [0, 1] after every stage of
the filter chain, for the raw strategy outputs, and for the final manager
output. -/
theorem confidence_clamped_every_stage (sig : TradeSignal)
    (h0 : 0 ≤ sig.confidence) (h1 : sig.confidence ≤ 1)
    (s : IndicatorSnapshot) (htf : List (String × HtfData))
    (fr ob news : ℚ) (d : DerivData) (symbol : String) (st : ManagerState)
    (frOpt : Option ℚ) (dOpt : Option DerivData) (bar : Int) :
    conf01 (applyTrendingWeakPenalty sig) ∧
    conf01 (applyChoppyFilter sig s) ∧
    conf01 (applyMtfFilter sig htf) ∧
    conf01 (applyFundingFilter sig fr) ∧
    conf01 (applyObFilter sig ob) ∧
    conf01 (applyNewsFilter sig news) ∧
    conf01 (applyDerivativesFilter sig d) ∧
    conf01 (momentumAnalyze s symbol) ∧
    conf01 (meanReversionAnalyze s symbol) ∧
    conf01 (breakoutAnalyze s symbol) ∧
    conf01 (get_signal st s symbol htf frOpt ob news bar dOpt).1 :=
  ⟨applyTrendingWeakPenalty_conf01 sig ⟨h0, h1⟩,
   applyChoppyFilter_conf01 sig s ⟨h0, h1⟩,
   applyMtfFilter_conf01 sig htf ⟨h0, h1⟩,
   applyFundingFilter_conf01 sig fr ⟨h0, h1⟩,
   applyObFilter_conf01 sig ob ⟨h0, h1⟩,
   applyNewsFilter_conf01 sig news ⟨h0, h1⟩,
   applyDerivativesFilter_conf01 sig d ⟨h0, h1⟩,
   momentumAnalyze_conf01 s symbol,
   meanReversionAnalyze_conf01 s symbol,
   breakoutAnalyze_conf01 s symbol,
   get_signal_conf01 st s symbol htf frOpt ob news bar dOpt⟩

/-- Concrete signal used to instantiate stage lemmas. -/
def sigW : TradeSignal :=
  { signal := Signal.BUY, confidence := 1/2, strategy := "momentum",
    symbol := "BTC/USDT", entry_price := 100, stop_loss := 95,
    take_profit := 110 }

/-- Concrete indicator snapshot used to instantiate pipeline lemmas. -/
def snapW : IndicatorSnapshot :=
  { barCount := 30, openPrice := 100, high := 101, low := 99, close := 100,
    prevOpen := 99, prevClose := 100, emaFast := 100, emaSlow := 99,
    emaTrend := 98, prevEmaFast := 98, prevEmaSlow := 99, rsi := 55, atr := 1,
    atrSma := 1, adx := 30, volumeRatio := 8/5, macdHist := 2/100,
    prevMacdHist := 0, obv := 1, obvEma := 0, bbl := 95, bbm := 100,
    bbu := 105, supportLevels := [], resistanceLevels := [],
    rsiDiv := Divergence.none, macdDiv := Divergence.none }

/-- Witness for C5 at a concrete signal, snapshot and adversarial scalar
extremes. -/
theorem confidence_clamped_every_stage_witness :
    conf01 (applyTrendingWeakPenalty sigW) ∧
    conf01 (applyChoppyFilter sigW snapW) ∧
    conf01 (applyMtfFilter sigW []) ∧
    conf01 (applyFundingFilter sigW 1) ∧
    conf01 (applyObFilter sigW (-1)) ∧
    conf01 (applyNewsFilter sigW 1) ∧
    conf01 (applyDerivativesFilter sigW {}) ∧
    conf01 (momentumAnalyze snapW "BTC/USDT") ∧
    conf01 (meanReversionAnalyze snapW "BTC/USDT") ∧
    conf01 (breakoutAnalyze snapW "BTC/USDT") ∧
    conf01 (get_signal {} snapW "BTC/USDT" [] (some 1) (-1) 1 0 (some {})).1 :=
  confidence_clamped_every_stage sigW (by norm_num [sigW]) (by norm_num [sigW])
    snapW [] 1 (-1) 1 {} "BTC/USDT" {} (some 1) (some {}) 0

/-! Claim C2: a liquidation cascade forces the final signal to HOLD with
confidence zero. -/

/-- A HOLD signal carries zero confidence. -/
def holdZero (sig : TradeSignal) : Prop :=
  sig.signal = Signal.HOLD → sig.confidence = 0

/-- Clamping zero yields zero. -/
theorem clamp01_zero : clamp01 0 = 0 := by
  unfold clamp01
  rw [min_eq_right (by norm_num : (0:ℚ) ≤ 1), max_self]

/-- A HOLD result of the momentum core carries zero raw confidence. -/
theorem momentumCore_hold (s : IndicatorSnapshot)
    (h : (momentumCore s).1 = Signal.HOLD) :
    momentumCore s = (Signal.HOLD, 0) := by
  unfold momentumCore at h ⊢
  split_ifs at h ⊢ <;>
    first
      | rfl
      | exact Signal.noConfusion h
      | exact absurd rfl (by assumption)

/-- A HOLD result of the mean reversion core carries zero raw confidence. -/
theorem meanReversionCore_hold (s : IndicatorSnapshot)
    (h : (meanReversionCore s).1 = Signal.HOLD) :
    meanReversionCore s = (Signal.HOLD, 0) := by
  unfold meanReversionCore at h ⊢
  split_ifs at h ⊢ <;>
    first
      | rfl
      | exact Signal.noConfusion h
      | exact absurd rfl (by assumption)

/-- A HOLD result of the resistance stage carries zero raw confidence. -/
theorem breakoutResistance_hold (s : IndicatorSnapshot)
    (h : (breakoutResistance s).1 = Signal.HOLD) :
    breakoutResistance s = (Signal.HOLD, 0) := by
  unfold breakoutResistance at h ⊢
  rcases hR : s.resistanceLevels with _ | ⟨r, rs⟩ <;> rw [hR] at h <;>
    dsimp only at h ⊢
  split_ifs at h ⊢ <;>
    first
      | rfl
      | exact Signal.noConfusion h
      | exact absurd rfl (by assumption)

/-- A HOLD result of the breakout core carries zero raw confidence. -/
theorem breakoutCore_hold (s : IndicatorSnapshot)
    (h : (breakoutCore s).1 = Signal.HOLD) :
    breakoutCore s = (Signal.HOLD, 0) := by
  unfold breakoutCore at h ⊢
  by_cases hr : (breakoutResistance s).1 = Signal.HOLD
  · rw [if_pos hr] at h ⊢
    rcases hS : s.supportLevels with _ | ⟨l, ls⟩ <;> rw [hS] at h
    · exact breakoutResistance_hold s hr
    · dsimp only at h ⊢
      split_ifs at h ⊢ <;>
        first
          | exact breakoutResistance_hold s hr
          | exact Signal.noConfusion h
          | exact absurd rfl (by assumption)
  · rw [if_neg hr] at h
    exact absurd h hr

/-- Momentum HOLD outputs carry zero confidence. -/
theorem momentumAnalyze_holdZero (s : IndicatorSnapshot) (symbol : String) :
    holdZero (momentumAnalyze s symbol) := by
  unfold momentumAnalyze
  by_cases h1 : s.barCount < EMA_TREND + 5
  · rw [if_pos h1]
    intro _
    rfl
  · rw [if_neg h1]
    dsimp only
    intro hh
    rw [momentumCore_hold s hh]
    exact clamp01_zero

/-- Mean reversion HOLD outputs carry zero confidence. -/
theorem meanReversionAnalyze_holdZero (s : IndicatorSnapshot)
    (symbol : String) : holdZero (meanReversionAnalyze s symbol) := by
  unfold meanReversionAnalyze
  by_cases h1 : s.barCount < BB_PERIOD + 5
  · rw [if_pos h1]
    intro _
    rfl
  · rw [if_neg h1]
    by_cases h2 : s.bbl = 0 ∨ s.bbu = 0
    · rw [if_pos h2]
      intro _
      rfl
    · rw [if_neg h2]
      dsimp only
      intro hh
      rw [meanReversionCore_hold s hh]
      exact clamp01_zero

/-- Breakout HOLD outputs carry zero confidence. -/
theorem breakoutAnalyze_holdZero (s : IndicatorSnapshot) (symbol : String) :
    holdZero (breakoutAnalyze s symbol) := by
  unfold breakoutAnalyze
  dsimp only
  by_cases h1 : s.barCount < max EMA_TREND SR_LOOKBACK + 5
  · rw [if_pos h1]
    intro _
    rfl
  · rw [if_neg h1]
    by_cases h2 : s.supportLevels = [] ∧ s.resistanceLevels = []
    · rw [if_pos h2]
      intro _
      rfl
    · rw [if_neg h2]
      intro hh
      rw [breakoutCore_hold s hh]
      exact clamp01_zero

/-- Every dispatched strategy emits zero confidence on HOLD. -/
theorem analyzeForRegime_holdZero (regime : MarketRegime)
    (s : IndicatorSnapshot) (symbol : String) :
    holdZero (analyzeForRegime regime s symbol) := by
  cases regime <;>
    first
      | exact momentumAnalyze_holdZero s symbol
      | exact meanReversionAnalyze_holdZero s symbol
      | exact breakoutAnalyze_holdZero s symbol

/-- The TRENDING_WEAK penalty keeps the direction. -/
theorem applyTrendingWeakPenalty_signal (sig : TradeSignal) :
    (applyTrendingWeakPenalty sig).signal = sig.signal := rfl

/-- The choppy filter keeps the direction. -/
theorem applyChoppyFilter_signal (sig : TradeSignal) (s : IndicatorSnapshot) :
    (applyChoppyFilter sig s).signal = sig.signal := by
  unfold applyChoppyFilter
  split_ifs <;> rfl

/-- The funding filter keeps the direction. -/
theorem applyFundingFilter_signal (sig : TradeSignal) (fr : ℚ) :
    (applyFundingFilter sig fr).signal = sig.signal := by
  unfold applyFundingFilter
  dsimp only
  split_ifs <;> rfl

/-- The order book filter keeps the direction. -/
theorem applyObFilter_signal (sig : TradeSignal) (ob : ℚ) :
    (applyObFilter sig ob).signal = sig.signal := by
  unfold applyObFilter
  dsimp only
  split_ifs <;> rfl

/-- The news filter keeps the direction. -/
theorem applyNewsFilter_signal (sig : TradeSignal) (news : ℚ) :
    (applyNewsFilter sig news).signal = sig.signal := by
  unfold applyNewsFilter
  dsimp only
  split_ifs <;> rfl

/-- The multi-timeframe filter applied to a directional signal never emits
HOLD with nonzero confidence. -/
theorem applyMtfFilter_hold (sig : TradeSignal)
    (htf : List (String × HtfData)) (hs : sig.signal ≠ Signal.HOLD) :
    holdZero (applyMtfFilter sig htf) := by
  unfold applyMtfFilter
  dsimp only
  split_ifs <;> intro hh <;> first | rfl | exact absurd hh hs

/-- Step lemma: the TRENDING_WEAK stage preserves holdZero. -/
theorem stepTrendingWeak_holdZero (regime : MarketRegime) (sig : TradeSignal)
    (h : holdZero sig) : holdZero (stepTrendingWeak regime sig) := by
  unfold stepTrendingWeak
  split_ifs with hg
  · intro hh
    rw [applyTrendingWeakPenalty_signal] at hh
    exact absurd hh hg.2
  · exact h

/-- Step lemma: the choppy stage preserves holdZero. -/
theorem stepChoppy_holdZero (s : IndicatorSnapshot) (sig : TradeSignal)
    (h : holdZero sig) : holdZero (stepChoppy s sig) := by
  unfold stepChoppy
  split_ifs with hg
  · intro hh
    rw [applyChoppyFilter_signal] at hh
    exact absurd hh hg.1
  · exact h

/-- Step lemma: the multi-timeframe stage preserves holdZero. -/
theorem stepMtf_holdZero (htf : List (String × HtfData)) (sig : TradeSignal)
    (h : holdZero sig) : holdZero (stepMtf htf sig) := by
  unfold stepMtf
  split_ifs with hg
  · exact applyMtfFilter_hold sig htf hg.1
  · exact h

/-- Step lemma: the funding stage preserves holdZero. -/
theorem stepFunding_holdZero (fr : Option ℚ) (sig : TradeSignal)
    (h : holdZero sig) : holdZero (stepFunding fr sig) := by
  cases fr with
  | none => exact h
  | some fr =>
    unfold stepFunding
    split_ifs with hg
    · intro hh
      rw [applyFundingFilter_signal] at hh
      exact absurd hh hg
    · exact h

/-- Step lemma: the order book stage preserves holdZero. -/
theorem stepOb_holdZero (ob : ℚ) (sig : TradeSignal)
    (h : holdZero sig) : holdZero (stepOb ob sig) := by
  unfold stepOb
  split_ifs with hg
  · intro hh
    rw [applyObFilter_signal] at hh
    exact absurd hh hg.1
  · exact h

/-- Step lemma: the news stage preserves holdZero. -/
theorem stepNews_holdZero (news : ℚ) (sig : TradeSignal)
    (h : holdZero sig) : holdZero (stepNews news sig) := by
  unfold stepNews
  split_ifs with hg
  · intro hh
    rw [applyNewsFilter_signal] at hh
    exact absurd hh hg.1
  · exact h

/-- The filter chain on a cascade derivatives snapshot ends in HOLD with
zero confidence, for every upstream signal that is zero-confidence on
HOLD. -/
theorem filterChain_cascade (regime : MarketRegime) (s : IndicatorSnapshot)
    (htf : List (String × HtfData)) (fr : Option ℚ) (ob news : ℚ)
    (d : DerivData) (hc : d.is_cascade = true) (sig : TradeSignal)
    (hz : holdZero sig) :
    (filterChain regime s htf fr ob news (some d) sig).signal = Signal.HOLD ∧
    (filterChain regime s htf fr ob news (some d) sig).confidence = 0 := by
  have hz6 : holdZero (stepNews news (stepOb ob (stepFunding fr
      (stepMtf htf (stepChoppy s (stepTrendingWeak regime sig)))))) :=
    stepNews_holdZero news _ (stepOb_holdZero ob _ (stepFunding_holdZero fr _
      (stepMtf_holdZero htf _ (stepChoppy_holdZero s _
        (stepTrendingWeak_holdZero regime sig hz)))))
  show (stepDerivatives (some d) _).signal = Signal.HOLD ∧
    (stepDerivatives (some d) _).confidence = 0
  unfold stepDerivatives
  dsimp only
  set sig6 := stepNews news (stepOb ob (stepFunding fr
    (stepMtf htf (stepChoppy s (stepTrendingWeak regime sig))))) with hsig6
  by_cases h6 : sig6.signal = Signal.HOLD
  · rw [if_neg (by simp [h6])]
    exact ⟨h6, hz6 h6⟩
  · rw [if_pos ⟨h6, rfl⟩]
    unfold applyDerivativesFilter
    rw [if_pos hc]
    exact ⟨rfl, rfl⟩

/-- C2: whenever the derivatives snapshot flags a liquidation cascade, the
final signal of get_signal is HOLD with confidence zero, whatever the
upstream strategy produced. -/
theorem cascade_forces_hold (st : ManagerState) (s : IndicatorSnapshot)
    (symbol : String) (htf : List (String × HtfData)) (frOpt : Option ℚ)
    (ob news : ℚ) (bar : Int) (d : DerivData) (hc : d.is_cascade = true) :
    (get_signal st s symbol htf frOpt ob news bar (some d)).1.signal
      = Signal.HOLD ∧
    (get_signal st s symbol htf frOpt ob news bar (some d)).1.confidence
      = 0 :=
  filterChain_cascade _ s htf frOpt ob news d hc _
    (analyzeForRegime_holdZero _ s symbol)

/-- Witness for C2 at a concrete cascade snapshot. -/
theorem cascade_forces_hold_witness :
    (get_signal {} snapW "BTC/USDT" [] Option.none 0 0 0
        (some { is_cascade := true })).1.signal = Signal.HOLD ∧
    (get_signal {} snapW "BTC/USDT" [] Option.none 0 0 0
        (some { is_cascade := true })).1.confidence = 0 :=
  cascade_forces_hold {} snapW "BTC/USDT" [] Option.none 0 0 0
    { is_cascade := true } rfl

/-! Claim C8: round-tripping the tracker's retained trade history. -/

/-- Replaying a persisted trade history oldest-first into a fresh tracker,
as the startup reload does when it feeds the stored rows into record_trade
one by one. -/
def replayTracker (lookback min_trades : ℕ) (history : List TradeRecord) :
    PerformanceTracker :=
  history.foldl record_trade (initTracker lookback min_trades)

/-- record_trade never changes the window capacity. -/
theorem record_trade_lookback (t : PerformanceTracker) (trade : TradeRecord) :
    (record_trade t trade).lookback = t.lookback := by
  unfold record_trade
  dsimp only
  split_ifs <;> rfl

/-- record_trade appends the trade to the global window as a capped deque. -/
theorem record_trade_all_trades (t : PerformanceTracker) (trade : TradeRecord) :
    (record_trade t trade).all_trades
      = dequeAppend t.lookback t.all_trades trade := by
  unfold record_trade
  dsimp only
  split_ifs <;> rfl

/-- Folding record_trade over a history updates the global window exactly
as folding the capped deque append over it. -/
theorem replay_all_trades (cap : ℕ) (history : List TradeRecord) :
    ∀ t : PerformanceTracker, t.lookback = cap →
      (history.foldl record_trade t).all_trades
        = history.foldl (fun xs x => dequeAppend cap xs x) t.all_trades := by
  induction history with
  | nil => intro t ht; rfl
  | cons x xs ih =>
      intro t ht
      simp only [List.foldl_cons]
      rw [ih (record_trade t x) (by rw [record_trade_lookback, ht]),
        record_trade_all_trades, ht]

/-- As long as the accumulated length stays within the capacity, the capped
deque append evicts nothing and the fold is plain list concatenation. -/
theorem foldl_dequeAppend_no_evict (cap : ℕ) (history : List TradeRecord) :
    ∀ acc : List TradeRecord, acc.length + history.length ≤ cap →
      history.foldl (fun xs x => dequeAppend cap xs x) acc = acc ++ history := by
  induction history with
  | nil => intro acc h; simp
  | cons x xs ih =>
      intro acc h
      simp only [List.foldl_cons]
      have hlen : (acc ++ [x]).length ≤ cap := by
        simp only [List.length_append, List.length_singleton]
        simp only [List.length_cons] at h
        omega
      have hd : dequeAppend cap acc x = acc ++ [x] := by
        unfold dequeAppend
        rw [if_neg]
        omega
      rw [hd, ih (acc ++ [x]) (by
        simp only [List.length_append, List.length_singleton]
        simp only [List.length_cons] at h
        omega)]
      simp

/-- A history that fits within the capacity is retained in full by the
replayed tracker's global window. -/
theorem replayTracker_all_trades (cap mt : ℕ) (history : List TradeRecord)
    (h : history.length ≤ cap) :
    (replayTracker cap mt history).all_trades = history := by
  unfold replayTracker
  rw [replay_all_trades cap history (initTracker cap mt) rfl]
  have : (initTracker cap mt).all_trades = ([] : List TradeRecord) := rfl
  rw [this, foldl_dequeAppend_no_evict cap history [] (by simpa using h)]
  simp

/-- The streak passed to _compute_metrics is copied verbatim into the
metrics of any non-empty window. -/
theorem computeMetrics_streak (trades : List TradeRecord) (streak : Int)
    (h : trades ≠ []) :
    (computeMetrics trades streak).current_streak = streak := by
  unfold computeMetrics
  rw [if_neg h]

/-- Losing trade used in the C8 counterexample. -/
def lTrade : TradeRecord := { strategy := "momentum", pnl := -1 }

/-- C8 counterexample: with capacity 1, recording two losing momentum
trades leaves the retained history at one trade but the live streak at
minus two; replaying the retained history oldest-first into a fresh
tracker of the same capacity yields a streak of minus one, so the overall
and the per-strategy StrategyMetrics of the replayed tracker differ from
the original ones. Streak state retained outside the rolling windows is
lost by the round trip once eviction has occurred. -/
theorem tracker_replay_counterexample :
    (replayTracker 1 8 [lTrade, lTrade]).all_trades = [lTrade] ∧
    (get_overall_metrics (replayTracker 1 8 [lTrade, lTrade])).current_streak
      = -2 ∧
    (get_overall_metrics (replayTracker 1 8 [lTrade])).current_streak = -1 ∧
    get_overall_metrics (replayTracker 1 8 [lTrade])
      ≠ get_overall_metrics (replayTracker 1 8 [lTrade, lTrade]) ∧
    get_strategy_metrics (replayTracker 1 8 [lTrade]) "momentum"
      ≠ get_strategy_metrics (replayTracker 1 8 [lTrade, lTrade]) "momentum" := by
  have hall2 : (replayTracker 1 8 [lTrade, lTrade]).all_trades = [lTrade] := rfl
  have hs2 : (replayTracker 1 8 [lTrade, lTrade]).overall_streak = -2 := rfl
  have hall1 : (replayTracker 1 8 [lTrade]).all_trades = [lTrade] := rfl
  have hs1 : (replayTracker 1 8 [lTrade]).overall_streak = -1 := rfl
  have hm2 : (get_overall_metrics
      (replayTracker 1 8 [lTrade, lTrade])).current_streak = -2 := by
    unfold get_overall_metrics
    rw [hall2, hs2]
    exact computeMetrics_streak _ _ (by simp)
  have hm1 : (get_overall_metrics
      (replayTracker 1 8 [lTrade])).current_streak = -1 := by
    unfold get_overall_metrics
    rw [hall1, hs1]
    exact computeMetrics_streak _ _ (by simp)
  have htr2 : (alistGet? (replayTracker 1 8 [lTrade, lTrade]).trades
      "momentum").getD [] = [lTrade] := rfl
  have hst2 : (alistGet? (replayTracker 1 8 [lTrade, lTrade]).streaks
      "momentum").getD 0 = -2 := rfl
  have htr1 : (alistGet? (replayTracker 1 8 [lTrade]).trades
      "momentum").getD [] = [lTrade] := rfl
  have hst1 : (alistGet? (replayTracker 1 8 [lTrade]).streaks
      "momentum").getD 0 = -1 := rfl
  have hsm2 : (get_strategy_metrics (replayTracker 1 8 [lTrade, lTrade])
      "momentum").current_streak = -2 := by
    unfold get_strategy_metrics
    rw [htr2, hst2]
    exact computeMetrics_streak _ _ (by simp)
  have hsm1 : (get_strategy_metrics (replayTracker 1 8 [lTrade])
      "momentum").current_streak = -1 := by
    unfold get_strategy_metrics
    rw [htr1, hst1]
    exact computeMetrics_streak _ _ (by simp)
  refine ⟨hall2, hm2, hm1, ?_, ?_⟩
  · intro h
    rw [h] at hm1
    exact absurd (hm2.symm.trans hm1) (by decide)
  · intro h
    rw [h] at hsm1
    exact absurd (hsm2.symm.trans hsm1) (by decide)

/-- C8 amended: replaying the tracker's retained global history
oldest-first into a fresh tracker with the same capacity reproduces the
original tracker's overall StrategyMetrics and its per-strategy
StrategyMetrics for every strategy, provided the recorded sequence fits
within the capacity, so that no trade was evicted. Beyond the capacity
the round trip is refuted by tracker_replay_counterexample, because the
streaks live outside the rolling windows. -/
theorem tracker_replay_roundtrip (cap mt : ℕ) (history : List TradeRecord)
    (h : history.length ≤ cap) :
    get_overall_metrics (replayTracker cap mt
        (replayTracker cap mt history).all_trades)
      = get_overall_metrics (replayTracker cap mt history) ∧
    ∀ strat : String,
      get_strategy_metrics (replayTracker cap mt
          (replayTracker cap mt history).all_trades) strat
        = get_strategy_metrics (replayTracker cap mt history) strat := by
  rw [replayTracker_all_trades cap mt history h]
  exact ⟨rfl, fun _ => rfl⟩

/-- Witness for the amended C8 at capacity two and a one-trade history. -/
theorem tracker_replay_roundtrip_witness :
    ([lTrade].length ≤ 2) ∧
    (get_overall_metrics (replayTracker 2 8
        (replayTracker 2 8 [lTrade]).all_trades)
      = get_overall_metrics (replayTracker 2 8 [lTrade]) ∧
    ∀ strat : String,
      get_strategy_metrics (replayTracker 2 8
          (replayTracker 2 8 [lTrade]).all_trades) strat
        = get_strategy_metrics (replayTracker 2 8 [lTrade]) strat) :=
  ⟨by simp, tracker_replay_roundtrip 2 8 [lTrade] (by simp)⟩

/-! Claim C9: the momentum bullish-cross scenario. -/

/-- Snapshot meeting every premiss of the bullish-cross scenario while
carrying a bearish RSI divergence and a zero ATR. -/
def snapC9 : IndicatorSnapshot :=
  { barCount := 26, openPrice := 0, high := 0, low := 0, close := 100,
    prevOpen := 0, prevClose := 0, emaFast := 2, emaSlow := 1, emaTrend := 50,
    prevEmaFast := 1, prevEmaSlow := 1, rsi := 55, atr := 0, atrSma := 0,
    adx := 0, volumeRatio := 8/5, macdHist := 2/100, prevMacdHist := 2/100,
    obv := 1, obvEma := 0, bbl := 0, bbm := 0, bbu := 0, supportLevels := [],
    resistanceLevels := [], rsiDiv := Divergence.bearish,
    macdDiv := Divergence.none }

/-- C9 counterexample: snapC9 satisfies every premiss of the scenario
(enough bars, fast EMA crossing above slow, price above the trend EMA,
RSI 55, MACD histogram 0.02, volume ratio 1.6, OBV above its EMA), yet
momentum analyze scores only 0.55, below the promised 0.70, because a
bearish RSI divergence subtracts 0.15 and a flat histogram adds only 0.10;
and with ATR 0 the stop-loss equals the entry price instead of sitting
strictly below it. -/
theorem momentum_bullish_cross_counterexample :
    EMA_TREND + 5 ≤ snapC9.barCount ∧
    snapC9.prevEmaFast ≤ snapC9.prevEmaSlow ∧
    snapC9.emaFast > snapC9.emaSlow ∧
    snapC9.close > snapC9.emaTrend ∧
    snapC9.rsi = 55 ∧ snapC9.macdHist = 2/100 ∧
    snapC9.volumeRatio = 8/5 ∧ snapC9.obv > snapC9.obvEma ∧
    (momentumAnalyze snapC9 "BTC/USDT").signal = Signal.BUY ∧
    (momentumAnalyze snapC9 "BTC/USDT").confidence < 70/100 ∧
    ¬ (momentumAnalyze snapC9 "BTC/USDT").stop_loss
        < (momentumAnalyze snapC9 "BTC/USDT").entry_price := by
  have hcore : momentumCore snapC9 = (Signal.BUY, 11/20) := by
    have h1 : ¬ (Divergence.none = Divergence.bullish) := by decide
    have h2 : ¬ (Divergence.bearish = Divergence.bullish) := by decide
    norm_num [momentumCore, momentumBuyConfidence, snapC9, RSI_OVERBOUGHT,
      h1, h2]
  have hsig : (momentumAnalyze snapC9 "BTC/USDT").signal = Signal.BUY := by
    unfold momentumAnalyze
    rw [if_neg (by norm_num [snapC9, EMA_TREND])]
    dsimp only
    rw [hcore]
  have hconf : (momentumAnalyze snapC9 "BTC/USDT").confidence = 11/20 := by
    unfold momentumAnalyze
    rw [if_neg (by norm_num [snapC9, EMA_TREND])]
    dsimp only
    rw [hcore]
    norm_num [clamp01, min_def, max_def]
  have hstop : (momentumAnalyze snapC9 "BTC/USDT").stop_loss = 100 := by
    unfold momentumAnalyze
    rw [if_neg (by norm_num [snapC9, EMA_TREND])]
    dsimp only
    rw [hcore]
    norm_num [snapC9, STOP_LOSS_ATR_MULTIPLIER]
  have hentry : (momentumAnalyze snapC9 "BTC/USDT").entry_price = 100 := by
    unfold momentumAnalyze
    rw [if_neg (by norm_num [snapC9, EMA_TREND])]
    dsimp only
    norm_num [snapC9]
  refine ⟨by norm_num [snapC9, EMA_TREND], by norm_num [snapC9],
    by norm_num [snapC9], by norm_num [snapC9], rfl, by norm_num [snapC9],
    by norm_num [snapC9], by norm_num [snapC9], hsig, ?_, ?_⟩
  · rw [hconf]
    norm_num
  · rw [hstop, hentry]
    norm_num

/-- C9 amended: under the scenario's premisses and additionally no bearish
RSI divergence and a strictly positive ATR, MomentumStrategy.analyze
returns BUY with pre-filter confidence at least 0.70 and a stop-loss
strictly below the entry price. Without the two extra premisses the
scenario is refuted by momentum_bullish_cross_counterexample. -/
theorem momentum_bullish_cross_amended (s : IndicatorSnapshot)
    (symbol : String) (hbar : EMA_TREND + 5 ≤ s.barCount)
    (hx : s.prevEmaFast ≤ s.prevEmaSlow) (hf : s.emaFast > s.emaSlow)
    (hp : s.close > s.emaTrend) (hrsi : s.rsi = 55)
    (hmacd : s.macdHist = 2/100) (hvol : s.volumeRatio = 8/5)
    (hobv : s.obv > s.obvEma) (hdiv : s.rsiDiv ≠ Divergence.bearish)
    (hatr : 0 < s.atr) :
    (momentumAnalyze s symbol).signal = Signal.BUY ∧
    70/100 ≤ (momentumAnalyze s symbol).confidence ∧
    (momentumAnalyze s symbol).stop_loss
      < (momentumAnalyze s symbol).entry_price := by
  have hcore : momentumCore s = (Signal.BUY, momentumBuyConfidence s) := by
    unfold momentumCore
    rw [if_pos (Or.inl ⟨hx, hf⟩)]
  have hc : 70/100 ≤ momentumBuyConfidence s := by
    have h2 : s.macdHist > 0 := by rw [hmacd]; norm_num
    have h3 : s.volumeRatio > 3/2 := by rw [hvol]; norm_num
    have h4 : (40:ℚ) < s.rsi := by rw [hrsi]; norm_num
    have h5 : s.rsi < RSI_OVERBOUGHT := by rw [hrsi]; norm_num [RSI_OVERBOUGHT]
    unfold momentumBuyConfidence
    simp only [h2, h3, h4, h5, hobv, true_and, and_true, if_true, ite_true]
    split_ifs <;>
      first
        | exact absurd (by assumption) hdiv
        | norm_num
  have hsig : (momentumAnalyze s symbol).signal = Signal.BUY := by
    unfold momentumAnalyze
    rw [if_neg (Nat.not_lt.mpr hbar)]
    dsimp only
    rw [hcore]
  have hconf : (momentumAnalyze s symbol).confidence
      = clamp01 (momentumBuyConfidence s) := by
    unfold momentumAnalyze
    rw [if_neg (Nat.not_lt.mpr hbar)]
    dsimp only
    rw [hcore]
  have hentry : (momentumAnalyze s symbol).entry_price = s.close := by
    unfold momentumAnalyze
    rw [if_neg (Nat.not_lt.mpr hbar)]
  have hstop : (momentumAnalyze s symbol).stop_loss
      = s.close - s.atr * STOP_LOSS_ATR_MULTIPLIER := by
    unfold momentumAnalyze
    rw [if_neg (Nat.not_lt.mpr hbar)]
    dsimp only
    rw [hcore]
    simp
  refine ⟨hsig, ?_, ?_⟩
  · rw [hconf]
    unfold clamp01
    exact le_trans (le_min (by norm_num) hc) (le_max_right _ _)
  · rw [hstop, hentry]
    have hpos : 0 < s.atr * STOP_LOSS_ATR_MULTIPLIER :=
      mul_pos hatr (by norm_num [STOP_LOSS_ATR_MULTIPLIER])
    linarith

/-- Snapshot for the amended C9 witness: the counterexample snapshot with
the bearish divergence removed and a positive ATR. -/
def snapC9W : IndicatorSnapshot :=
  { barCount := 26, openPrice := 0, high := 0, low := 0, close := 100,
    prevOpen := 0, prevClose := 0, emaFast := 2, emaSlow := 1, emaTrend := 50,
    prevEmaFast := 1, prevEmaSlow := 1, rsi := 55, atr := 1, atrSma := 0,
    adx := 0, volumeRatio := 8/5, macdHist := 2/100, prevMacdHist := 2/100,
    obv := 1, obvEma := 0, bbl := 0, bbm := 0, bbu := 0, supportLevels := [],
    resistanceLevels := [], rsiDiv := Divergence.none,
    macdDiv := Divergence.none }

/-- Witness for the amended C9 at the concrete snapshot snapC9W. -/
theorem momentum_bullish_cross_amended_witness :
    (EMA_TREND + 5 ≤ snapC9W.barCount ∧
      snapC9W.prevEmaFast ≤ snapC9W.prevEmaSlow ∧
      snapC9W.emaFast > snapC9W.emaSlow ∧
      snapC9W.close > snapC9W.emaTrend ∧
      snapC9W.rsi = 55 ∧ snapC9W.macdHist = 2/100 ∧
      snapC9W.volumeRatio = 8/5 ∧ snapC9W.obv > snapC9W.obvEma ∧
      snapC9W.rsiDiv ≠ Divergence.bearish ∧ 0 < snapC9W.atr) ∧
    ((momentumAnalyze snapC9W "BTC/USDT").signal = Signal.BUY ∧
      70/100 ≤ (momentumAnalyze snapC9W "BTC/USDT").confidence ∧
      (momentumAnalyze snapC9W "BTC/USDT").stop_loss
        < (momentumAnalyze snapC9W "BTC/USDT").entry_price) :=
  ⟨⟨by norm_num [snapC9W, EMA_TREND], by norm_num [snapC9W],
    by norm_num [snapC9W], by norm_num [snapC9W], rfl,
    by norm_num [snapC9W], by norm_num [snapC9W], by norm_num [snapC9W],
    by decide, by norm_num [snapC9W]⟩,
   momentum_bullish_cross_amended snapC9W "BTC/USDT"
     (by norm_num [snapC9W, EMA_TREND]) (by norm_num [snapC9W])
     (by norm_num [snapC9W]) (by norm_num [snapC9W]) rfl
     (by norm_num [snapC9W]) (by norm_num [snapC9W]) (by norm_num [snapC9W])
     (by decide) (by norm_num [snapC9W])⟩

end CryptoTrader
